import Mathlib

/-!
# WinServ: the service lifecycle controller (`ServiceBase`)

A shallow embedding of `src/WinServ/ServiceBase.cpp` and of the worker loop of
`src/WinServ/WinService.cpp`.  The status record
`m_status`, the function-local static `dwCheckPoint` of
`ServiceBase::SetServiceStatus` and the calls the controller makes to the
outside world (status reports to the service control manager, virtual hook
invocations, event-log writes) are explicit: every member function is a
function on `Process`, and the outside calls are appended to `Process.trace`
in program order.

The worker thread is a function of the values its successive reads of
`m_fStopping` yield, returning the calls it makes in program order.

`DWORD` values are natural numbers; the only arithmetic on them in the source
is the post-increment of the checkpoint counter, which wraps modulo `2^32`.
-/

set_option linter.dupNamespace false

namespace WinServ

/-! ## Platform constants (Windows SDK: `winsvc.h`, `winnt.h`, `winerror.h`) -/

abbrev DWORD := Nat
abbrev WORD := Nat
abbrev BOOL := Int

def DWORD_SIZE : Nat := 2 ^ 32

def TRUE : BOOL := 1
def FALSE : BOOL := 0
def NO_ERROR : DWORD := 0

def SERVICE_STOPPED : DWORD := 1
def SERVICE_START_PENDING : DWORD := 2
def SERVICE_STOP_PENDING : DWORD := 3
def SERVICE_RUNNING : DWORD := 4
def SERVICE_CONTINUE_PENDING : DWORD := 5
def SERVICE_PAUSE_PENDING : DWORD := 6
def SERVICE_PAUSED : DWORD := 7

def SERVICE_CONTROL_STOP : DWORD := 1
def SERVICE_CONTROL_PAUSE : DWORD := 2
def SERVICE_CONTROL_CONTINUE : DWORD := 3
def SERVICE_CONTROL_INTERROGATE : DWORD := 4
def SERVICE_CONTROL_SHUTDOWN : DWORD := 5

def SERVICE_ACCEPT_STOP : DWORD := 1
def SERVICE_ACCEPT_PAUSE_CONTINUE : DWORD := 2
def SERVICE_ACCEPT_SHUTDOWN : DWORD := 4

def SERVICE_WIN32_OWN_PROCESS : DWORD := 16

def EVENTLOG_ERROR_TYPE : WORD := 1
def EVENTLOG_INFORMATION_TYPE : WORD := 4

/-! ## Data model -/

/-- The `SERVICE_STATUS` record held in `ServiceBase::m_status` and handed to
the service control manager on every report. -/
structure SERVICE_STATUS where
  dwServiceType : DWORD
  dwCurrentState : DWORD
  dwControlsAccepted : DWORD
  dwWin32ExitCode : DWORD
  dwServiceSpecificExitCode : DWORD
  dwCheckPoint : DWORD
  dwWaitHint : DWORD
deriving DecidableEq, Repr

/-- The data members of a `ServiceBase` object. -/
structure ServiceBase where
  m_name : String
  m_statusHandle : Nat
  m_status : SERVICE_STATUS
deriving DecidableEq, Repr

/-- The five virtual hooks of `ServiceBase`. -/
inductive Hook where
  | OnStart
  | OnStop
  | OnPause
  | OnContinue
  | OnShutdown
deriving DecidableEq, Repr

/-- How a hook invocation ends: it returns, it throws a `DWORD` (caught by
`catch (DWORD dwError)`), or it throws anything else (caught by `catch (...)`).
The hooks of this repository (the empty bodies in `ServiceBase.cpp`,
`WinService::OnStart` and `WinService::OnStop`) make no status report of
their own, so an invocation is one event with an outcome. -/
inductive HookOutcome where
  | returns
  | throwsDWORD (dwError : DWORD)
  | throwsOther
deriving DecidableEq, Repr

/-- The outcome of each virtual hook of the installed service object. -/
structure Hooks where
  OnStart : HookOutcome
  OnStop : HookOutcome
  OnPause : HookOutcome
  OnContinue : HookOutcome
  OnShutdown : HookOutcome
deriving DecidableEq, Repr

/-- A call the controller makes to the outside world.
`report`: `::SetServiceStatus(m_statusHandle, &m_status)`;
`hook`: a virtual hook invocation;
`log`: a call of `WriteEventLogEntry(pszMessage, wType)` (the write itself is
fire-and-forget: it reaches the event log when `RegisterEventSource` yields a
handle). -/
inductive Event where
  | report (hServiceStatus : Nat) (status : SERVICE_STATUS)
  | hook (h : Hook)
  | log (pszMessage : String) (wType : WORD)
deriving DecidableEq, Repr

/-- The running service process: the singleton `s_service`, the static local
`dwCheckPoint` of `SetServiceStatus`, and the outside calls made so far. -/
structure Process where
  s_service : ServiceBase
  dwCheckPoint : DWORD
  trace : List Event
deriving DecidableEq, Repr

/-- The default arguments `SetServiceStatus` is declared with in
`ServiceBase.h`.  The header is not part of the sources at hand, so the two
defaults are parameters of the embedding. -/
structure ServiceBaseH where
  dwWin32ExitCode : DWORD
  dwWaitHint : DWORD
deriving DecidableEq, Repr

/-- Modelled from the spec: the default arguments declared in `ServiceBase.h`
(absent from the sources).  The data model gives exit code `0` for success
(the `NO_ERROR` the constructor stores) and a report that names no wait hint
carries none.  Used only to evaluate the code on concrete inputs. -/
def stdHeader : ServiceBaseH :=
  { dwWin32ExitCode := NO_ERROR, dwWaitHint := 0 }

/-! ## `ServiceBase.cpp` -/

/-- `ServiceBase::ServiceBase(pszServiceName, fCanStop, fCanShutdown,
fCanPauseContinue)`; a `NULL` name is `none`. -/
def ServiceBase.ServiceBase (pszServiceName : Option String)
    (fCanStop fCanShutdown fCanPauseContinue : BOOL) : ServiceBase :=
  let dwControlsAccepted0 : DWORD := 0
  let dwControlsAccepted1 :=
    if fCanStop ≠ 0 then dwControlsAccepted0 ||| SERVICE_ACCEPT_STOP else dwControlsAccepted0
  let dwControlsAccepted2 :=
    if fCanShutdown ≠ 0 then dwControlsAccepted1 ||| SERVICE_ACCEPT_SHUTDOWN
    else dwControlsAccepted1
  let dwControlsAccepted3 :=
    if fCanPauseContinue ≠ 0 then dwControlsAccepted2 ||| SERVICE_ACCEPT_PAUSE_CONTINUE
    else dwControlsAccepted2
  { m_name := match pszServiceName with
      | none => ""
      | some s => s
    m_statusHandle := 0
    m_status :=
      { dwServiceType := SERVICE_WIN32_OWN_PROCESS
        dwCurrentState := SERVICE_START_PENDING
        dwControlsAccepted := dwControlsAccepted3
        dwWin32ExitCode := NO_ERROR
        dwServiceSpecificExitCode := 0
        dwCheckPoint := 0
        dwWaitHint := 0 } }

/-- The process right after start-up with `service` installed as the
singleton: `static DWORD dwCheckPoint = 1`, nothing reported yet. -/
def processStart (service : ServiceBase) : Process :=
  { s_service := service, dwCheckPoint := 1, trace := [] }

/-- `ServiceBase::SetServiceStatus(dwCurrentState, dwWin32ExitCode,
dwWaitHint)` with all three arguments given. -/
def ServiceBase.SetServiceStatus (p : Process)
    (dwCurrentState dwWin32ExitCode dwWaitHint : DWORD) : Process :=
  let resets := (dwCurrentState == SERVICE_RUNNING) || (dwCurrentState == SERVICE_STOPPED)
  let status : SERVICE_STATUS :=
    { p.s_service.m_status with
      dwCurrentState := dwCurrentState
      dwWin32ExitCode := dwWin32ExitCode
      dwWaitHint := dwWaitHint
      dwCheckPoint := if resets then 0 else p.dwCheckPoint }
  { s_service := { p.s_service with m_status := status }
    dwCheckPoint := if resets then p.dwCheckPoint else (p.dwCheckPoint + 1) % DWORD_SIZE
    trace := p.trace ++ [Event.report p.s_service.m_statusHandle status] }

/-- The call `SetServiceStatus(dwCurrentState)`: both defaults apply. -/
def ServiceBase.SetServiceStatus1 (h : ServiceBaseH) (p : Process)
    (dwCurrentState : DWORD) : Process :=
  ServiceBase.SetServiceStatus p dwCurrentState h.dwWin32ExitCode h.dwWaitHint

/-- The call `SetServiceStatus(dwCurrentState, dwWin32ExitCode)`: the wait
hint is the default. -/
def ServiceBase.SetServiceStatus2 (h : ServiceBaseH) (p : Process)
    (dwCurrentState dwWin32ExitCode : DWORD) : Process :=
  ServiceBase.SetServiceStatus p dwCurrentState dwWin32ExitCode h.dwWaitHint

/-- `ServiceBase::WriteEventLogEntry(pszMessage, wType)`. -/
def ServiceBase.WriteEventLogEntry (p : Process) (pszMessage : String) (wType : WORD) :
    Process :=
  { p with trace := p.trace ++ [Event.log pszMessage wType] }

/-- The `%08lx` conversion: lower-case hexadecimal, zero-padded to 8 digits. -/
def hex08 (n : DWORD) : List Char :=
  let ds := Nat.toDigits 16 n
  List.replicate (8 - ds.length) '0' ++ ds

/-- `ServiceBase::WriteErrorLogEntry(pszFunction, dwError)`: the message is
formatted into a buffer of 260 wide characters. -/
def ServiceBase.WriteErrorLogEntry (p : Process) (pszFunction : String) (dwError : DWORD) :
    Process :=
  let szMessage :=
    String.mk ((pszFunction.data ++ " failed w/err 0x".data ++ hex08 dwError).take 259)
  ServiceBase.WriteEventLogEntry p szMessage EVENTLOG_ERROR_TYPE

/-- A virtual hook is entered. -/
def invoke (p : Process) (h : Hook) : Process :=
  { p with trace := p.trace ++ [Event.hook h] }

/-- `ServiceBase::Start(dwArgc, pszArgv)`; the arguments are only handed to
`OnStart`. -/
def ServiceBase.Start (h : ServiceBaseH) (p : Process) (OnStart : HookOutcome) : Process :=
  let p1 := ServiceBase.SetServiceStatus1 h p SERVICE_START_PENDING
  let p2 := invoke p1 Hook.OnStart
  match OnStart with
  | HookOutcome.returns => ServiceBase.SetServiceStatus1 h p2 SERVICE_RUNNING
  | HookOutcome.throwsDWORD dwError =>
      ServiceBase.SetServiceStatus2 h
        (ServiceBase.WriteErrorLogEntry p2 "Service Start" dwError) SERVICE_STOPPED dwError
  | HookOutcome.throwsOther =>
      ServiceBase.SetServiceStatus1 h
        (ServiceBase.WriteEventLogEntry p2 "Service failed to start." EVENTLOG_ERROR_TYPE)
        SERVICE_STOPPED

/-- `ServiceBase::Stop()`. -/
def ServiceBase.Stop (h : ServiceBaseH) (p : Process) (OnStop : HookOutcome) : Process :=
  let dwOriginalState := p.s_service.m_status.dwCurrentState
  let p1 := ServiceBase.SetServiceStatus1 h p SERVICE_STOP_PENDING
  let p2 := invoke p1 Hook.OnStop
  match OnStop with
  | HookOutcome.returns => ServiceBase.SetServiceStatus1 h p2 SERVICE_STOPPED
  | HookOutcome.throwsDWORD dwError =>
      ServiceBase.SetServiceStatus1 h
        (ServiceBase.WriteErrorLogEntry p2 "Service Stop" dwError) dwOriginalState
  | HookOutcome.throwsOther =>
      ServiceBase.SetServiceStatus1 h
        (ServiceBase.WriteEventLogEntry p2 "Service failed to stop." EVENTLOG_ERROR_TYPE)
        dwOriginalState

/-- `ServiceBase::Pause()`. -/
def ServiceBase.Pause (h : ServiceBaseH) (p : Process) (OnPause : HookOutcome) : Process :=
  let p1 := ServiceBase.SetServiceStatus1 h p SERVICE_PAUSE_PENDING
  let p2 := invoke p1 Hook.OnPause
  match OnPause with
  | HookOutcome.returns => ServiceBase.SetServiceStatus1 h p2 SERVICE_PAUSED
  | HookOutcome.throwsDWORD dwError =>
      ServiceBase.SetServiceStatus1 h
        (ServiceBase.WriteErrorLogEntry p2 "Service Pause" dwError) SERVICE_RUNNING
  | HookOutcome.throwsOther =>
      ServiceBase.SetServiceStatus1 h
        (ServiceBase.WriteEventLogEntry p2 "Service failed to pause." EVENTLOG_ERROR_TYPE)
        SERVICE_RUNNING

/-- `ServiceBase::Continue()`. -/
def ServiceBase.Continue (h : ServiceBaseH) (p : Process) (OnContinue : HookOutcome) :
    Process :=
  let p1 := ServiceBase.SetServiceStatus1 h p SERVICE_CONTINUE_PENDING
  let p2 := invoke p1 Hook.OnContinue
  match OnContinue with
  | HookOutcome.returns => ServiceBase.SetServiceStatus1 h p2 SERVICE_RUNNING
  | HookOutcome.throwsDWORD dwError =>
      ServiceBase.SetServiceStatus1 h
        (ServiceBase.WriteErrorLogEntry p2 "Service Continue" dwError) SERVICE_PAUSED
  | HookOutcome.throwsOther =>
      ServiceBase.SetServiceStatus1 h
        (ServiceBase.WriteEventLogEntry p2 "Service failed to resume." EVENTLOG_ERROR_TYPE)
        SERVICE_PAUSED

/-- `ServiceBase::Shutdown()`. -/
def ServiceBase.Shutdown (h : ServiceBaseH) (p : Process) (OnShutdown : HookOutcome) :
    Process :=
  let p1 := invoke p Hook.OnShutdown
  match OnShutdown with
  | HookOutcome.returns => ServiceBase.SetServiceStatus1 h p1 SERVICE_STOPPED
  | HookOutcome.throwsDWORD dwError =>
      ServiceBase.WriteErrorLogEntry p1 "Service Shutdown" dwError
  | HookOutcome.throwsOther =>
      ServiceBase.WriteEventLogEntry p1 "Service failed to shut down." EVENTLOG_ERROR_TYPE

/-- `ServiceBase::ServiceCtrlHandler(dwCtrl)`: the `switch` on the control
code, acting on the singleton. -/
def ServiceBase.ServiceCtrlHandler (h : ServiceBaseH) (hooks : Hooks) (p : Process)
    (dwCtrl : DWORD) : Process :=
  if dwCtrl = SERVICE_CONTROL_STOP then ServiceBase.Stop h p hooks.OnStop
  else if dwCtrl = SERVICE_CONTROL_PAUSE then ServiceBase.Pause h p hooks.OnPause
  else if dwCtrl = SERVICE_CONTROL_CONTINUE then ServiceBase.Continue h p hooks.OnContinue
  else if dwCtrl = SERVICE_CONTROL_SHUTDOWN then ServiceBase.Shutdown h p hooks.OnShutdown
  else if dwCtrl = SERVICE_CONTROL_INTERROGATE then p
  else p

/-! ## Observations on a run -/

/-- The current state of the controller. -/
def Process.state (p : Process) : DWORD :=
  p.s_service.m_status.dwCurrentState

/-- The outside calls made while going from `p` to `q`. -/
def emitted (p q : Process) : List Event :=
  q.trace.drop p.trace.length

/-- What an outside call looks like when only the reported state matters. -/
inductive Obs where
  | report (dwCurrentState : DWORD)
  | hook (h : Hook)
  | log
deriving DecidableEq, Repr

def Event.view : Event → Obs
  | Event.report _ status => Obs.report status.dwCurrentState
  | Event.hook h => Obs.hook h
  | Event.log _ _ => Obs.log

/-- The status records reported to the manager, in order. -/
def reports : List Event → List SERVICE_STATUS
  | [] => []
  | Event.report _ status :: es => status :: reports es
  | Event.hook _ :: es => reports es
  | Event.log _ _ :: es => reports es

/-- The hooks invoked, in order. -/
def hookCalls : List Event → List Hook
  | [] => []
  | Event.hook h :: es => h :: hookCalls es
  | Event.report _ _ :: es => hookCalls es
  | Event.log _ _ :: es => hookCalls es

/-- The event-log writes requested, in order. -/
def logCalls : List Event → List (String × WORD)
  | [] => []
  | Event.log m t :: es => (m, t) :: logCalls es
  | Event.report _ _ :: es => logCalls es
  | Event.hook _ :: es => logCalls es

/-- Whether a reported state is one of the two for which `SetServiceStatus`
reports checkpoint 0. -/
def isRunningOrStopped (dwCurrentState : DWORD) : Bool :=
  (dwCurrentState == SERVICE_RUNNING) || (dwCurrentState == SERVICE_STOPPED)

/-- How many of the reports are in a state other than Running and Stopped. -/
def pendingCount : List SERVICE_STATUS → Nat
  | [] => 0
  | r :: rs => (if isRunningOrStopped r.dwCurrentState then 0 else 1) + pendingCount rs

/-- Every report in `rs` carries the checkpoint its position calls for. -/
def CheckPointsRight (rs : List SERVICE_STATUS) : Prop :=
  ∀ (pre : List SERVICE_STATUS) (r : SERVICE_STATUS) (post : List SERVICE_STATUS),
    rs = pre ++ r :: post →
    r.dwCheckPoint =
      if isRunningOrStopped r.dwCurrentState then 0 else (pendingCount pre + 1) % DWORD_SIZE

/-- The invariant of the checkpoint counter: the static counter is one more
than the number of pending reports made (modulo `2^32`), and every report made
carries the checkpoint its position calls for. -/
def CheckPointInv (p : Process) : Prop :=
  p.dwCheckPoint = (pendingCount (reports p.trace) + 1) % DWORD_SIZE
  ∧ CheckPointsRight (reports p.trace)

/-! ## Runs of the process -/

/-- One thing the process does after start-up: a member function is entered
(`callSetServiceStatus` is a direct call of the protected `SetServiceStatus`
with arbitrary arguments), or the manager delivers a control code. -/
inductive Op where
  | callSetServiceStatus (dwCurrentState dwWin32ExitCode dwWaitHint : DWORD)
  | callStart (OnStart : HookOutcome)
  | callStop (OnStop : HookOutcome)
  | callPause (OnPause : HookOutcome)
  | callContinue (OnContinue : HookOutcome)
  | callShutdown (OnShutdown : HookOutcome)
  | control (hooks : Hooks) (dwCtrl : DWORD)
deriving DecidableEq, Repr

def Op.run (h : ServiceBaseH) (p : Process) : Op → Process
  | Op.callSetServiceStatus s e w => ServiceBase.SetServiceStatus p s e w
  | Op.callStart o => ServiceBase.Start h p o
  | Op.callStop o => ServiceBase.Stop h p o
  | Op.callPause o => ServiceBase.Pause h p o
  | Op.callContinue o => ServiceBase.Continue h p o
  | Op.callShutdown o => ServiceBase.Shutdown h p o
  | Op.control hooks dwCtrl => ServiceBase.ServiceCtrlHandler h hooks p dwCtrl

/-- The process after the operations `ops`, one at a time, from `p`. -/
def runOps (h : ServiceBaseH) (p : Process) : List Op → Process
  | [] => p
  | op :: ops => runOps h (Op.run h p op) ops

/-- The changes of `m_status.dwCurrentState` made while the calls `evs` were
emitted, starting in state `s`.  The state is written by `SetServiceStatus`
only, which reports the record right after the write, so the states held are
`s` followed by the reported states; a write of the state already held is no
change. -/
def stateChanges (s : DWORD) : List Event → List (DWORD × DWORD)
  | [] => []
  | Event.report _ status :: es =>
      (if s = status.dwCurrentState then [] else [(s, status.dwCurrentState)])
        ++ stateChanges status.dwCurrentState es
  | Event.hook _ :: es => stateChanges s es
  | Event.log _ _ :: es => stateChanges s es

/-- The edges of the state table of the specification (section 4.1), written
from the specification and not from the source: the relation the state
changes of the code are compared with. -/
def specEdges : List (DWORD × DWORD) :=
  [(SERVICE_RUNNING, SERVICE_STOP_PENDING),
   (SERVICE_STOP_PENDING, SERVICE_STOPPED),
   (SERVICE_STOP_PENDING, SERVICE_RUNNING),
   (SERVICE_RUNNING, SERVICE_PAUSE_PENDING),
   (SERVICE_PAUSE_PENDING, SERVICE_PAUSED),
   (SERVICE_PAUSE_PENDING, SERVICE_RUNNING),
   (SERVICE_PAUSED, SERVICE_CONTINUE_PENDING),
   (SERVICE_CONTINUE_PENDING, SERVICE_RUNNING),
   (SERVICE_CONTINUE_PENDING, SERVICE_PAUSED),
   (SERVICE_RUNNING, SERVICE_STOPPED),
   (SERVICE_START_PENDING, SERVICE_RUNNING),
   (SERVICE_START_PENDING, SERVICE_STOPPED)]

/-! ## Concrete runs -/

/-- The service object `wmain` builds in `EntryPoint.cpp`,
`WinService service(SERVICE_NAME)`, with the constructor defaults of
`WinService.h`: stop yes, shutdown yes, pause/continue no. -/
def sampleService : ServiceBase :=
  ServiceBase.ServiceBase (some "SampleWindowsService") TRUE TRUE FALSE

/-- The sample service after a successful `Start`: state Running. -/
def sampleRunning : Process :=
  ServiceBase.Start stdHeader (processStart sampleService) HookOutcome.returns

/-- The sample service after a `Start` whose hook threw 87: state Stopped. -/
def sampleStopped : Process :=
  ServiceBase.Start stdHeader (processStart sampleService) (HookOutcome.throwsDWORD 87)

/-- A service built with pause/continue enabled, started and then paused:
state Paused. -/
def pausableService : ServiceBase :=
  ServiceBase.ServiceBase (some "SampleWindowsService") TRUE TRUE TRUE

def pausablePaused : Process :=
  ServiceBase.Pause stdHeader
    (ServiceBase.Start stdHeader (processStart pausableService) HookOutcome.returns)
    HookOutcome.returns

/-- The hooks of `ServiceBase` itself: the empty bodies, which all return. -/
def baseHooks : Hooks :=
  { OnStart := HookOutcome.returns
    OnStop := HookOutcome.returns
    OnPause := HookOutcome.returns
    OnContinue := HookOutcome.returns
    OnShutdown := HookOutcome.returns }

/-- A start followed by the Stop control code, both hooks returning. -/
def sampleOps : List Op :=
  [Op.callStart HookOutcome.returns,
   Op.control baseHooks SERVICE_CONTROL_STOP]

/-- The four reports the sample service makes over `sampleOps`: StartPending,
Running, StopPending, Stopped. -/
def sampleReports : List SERVICE_STATUS :=
  reports (runOps stdHeader (processStart sampleService) sampleOps).trace

/-- The process `p` with another value in `m_status.dwControlsAccepted`. -/
def withControlsAccepted (p : Process) (dwControlsAccepted : DWORD) : Process :=
  { p with
    s_service :=
      { p.s_service with
        m_status := { p.s_service.m_status with dwControlsAccepted := dwControlsAccepted } } }

/-! ## `WinService.cpp`: the worker -/

/-- A call or a read the worker thread makes, in program order:
`InternetGetConnectedState(&dwFlags, 0)`, a read of `m_fStopping` in the loop
condition with the value read, `WriteEventLogEntry(pszMessage, wType)`,
`Sleep(dwMilliseconds)` and `SetEvent(m_hStoppedEvent)`. -/
inductive WorkerEvent where
  | InternetGetConnectedState
  | readStopping (m_fStopping : BOOL)
  | WriteEventLogEntry (pszMessage : String) (wType : WORD)
  | Sleep (dwMilliseconds : DWORD)
  | SetEvent
deriving DecidableEq, Repr

/-- The loop `while (!m_fStopping) { WriteEventLogEntry(...); Sleep(50000); }`
over the values the successive reads of `m_fStopping` yield.  The result is
what the thread did and whether it left the loop; when the reads given run
out the thread is still in the loop. -/
def workerLoop : List BOOL → List WorkerEvent × Bool
  | [] => ([], false)
  | m_fStopping :: reads =>
      if m_fStopping = 0 then
        (WorkerEvent.readStopping m_fStopping
          :: WorkerEvent.WriteEventLogEntry "WinServ is running" EVENTLOG_INFORMATION_TYPE
          :: WorkerEvent.Sleep 50000
          :: (workerLoop reads).1,
         (workerLoop reads).2)
      else
        ([WorkerEvent.readStopping m_fStopping], true)

/-- `WinService::ServiceWorkerThread()` over the values read from
`m_fStopping`: what the thread did, and whether it returned. -/
def WinService.ServiceWorkerThread (reads : List BOOL) : List WorkerEvent × Bool :=
  if (workerLoop reads).2 then
    (WorkerEvent.InternetGetConnectedState :: (workerLoop reads).1 ++ [WorkerEvent.SetEvent],
     true)
  else
    (WorkerEvent.InternetGetConnectedState :: (workerLoop reads).1, false)

/-- What one pass through the loop body does after a read of `v`. -/
def loopPass (v : BOOL) : List WorkerEvent :=
  [WorkerEvent.readStopping v,
   WorkerEvent.WriteEventLogEntry "WinServ is running" EVENTLOG_INFORMATION_TYPE,
   WorkerEvent.Sleep 50000]

/-- The passes through the loop body after the reads `vs`, one after the
other. -/
def loopPasses : List BOOL → List WorkerEvent
  | [] => []
  | v :: vs => loopPass v ++ loopPasses vs

/-- The values read from `m_fStopping`, in order. -/
def stoppingReads : List WorkerEvent → List BOOL
  | [] => []
  | WorkerEvent.readStopping v :: es => v :: stoppingReads es
  | WorkerEvent.InternetGetConnectedState :: es => stoppingReads es
  | WorkerEvent.WriteEventLogEntry _ _ :: es => stoppingReads es
  | WorkerEvent.Sleep _ :: es => stoppingReads es
  | WorkerEvent.SetEvent :: es => stoppingReads es

/-! ## Basic facts about the trace -/

section TraceLemmas
open ServiceBase

theorem emitted_of_append (p q : Process) (evs : List Event)
    (h : q.trace = p.trace ++ evs) : emitted p q = evs := by
  simp [emitted, h]

theorem SetServiceStatus_trace (p : Process) (s e w : DWORD) :
    (SetServiceStatus p s e w).trace =
      p.trace ++ [Event.report p.s_service.m_statusHandle
        (SetServiceStatus p s e w).s_service.m_status] := rfl

theorem SetServiceStatus_state (p : Process) (s e w : DWORD) :
    (SetServiceStatus p s e w).state = s := rfl

theorem Stop_hookCalls (h : ServiceBaseH) (p : Process) (o : HookOutcome) :
    (Stop h p o).trace = p.trace ++ emitted p (Stop h p o)
    ∧ hookCalls (emitted p (Stop h p o)) = [Hook.OnStop] := by
  cases o <;>
    simp [emitted, Stop, SetServiceStatus1, SetServiceStatus, invoke, WriteErrorLogEntry,
      WriteEventLogEntry, hookCalls]

theorem Pause_hookCalls (h : ServiceBaseH) (p : Process) (o : HookOutcome) :
    (Pause h p o).trace = p.trace ++ emitted p (Pause h p o)
    ∧ hookCalls (emitted p (Pause h p o)) = [Hook.OnPause] := by
  cases o <;>
    simp [emitted, Pause, SetServiceStatus1, SetServiceStatus, invoke, WriteErrorLogEntry,
      WriteEventLogEntry, hookCalls]

theorem Continue_hookCalls (h : ServiceBaseH) (p : Process) (o : HookOutcome) :
    (Continue h p o).trace = p.trace ++ emitted p (Continue h p o)
    ∧ hookCalls (emitted p (Continue h p o)) = [Hook.OnContinue] := by
  cases o <;>
    simp [emitted, Continue, SetServiceStatus1, SetServiceStatus, invoke, WriteErrorLogEntry,
      WriteEventLogEntry, hookCalls]

theorem Shutdown_hookCalls (h : ServiceBaseH) (p : Process) (o : HookOutcome) :
    (Shutdown h p o).trace = p.trace ++ emitted p (Shutdown h p o)
    ∧ hookCalls (emitted p (Shutdown h p o)) = [Hook.OnShutdown] := by
  cases o <;>
    simp [emitted, Shutdown, SetServiceStatus1, SetServiceStatus, invoke, WriteErrorLogEntry,
      WriteEventLogEntry, hookCalls]

/-- No transition reads `dwControlsAccepted`: with another value there, the
same calls are made and the same state results. -/
theorem Stop_accepted_irrelevant (h : ServiceBaseH) (p : Process) (a : DWORD)
    (o : HookOutcome) :
    (emitted (withControlsAccepted p a) (Stop h (withControlsAccepted p a) o)).map Event.view
        = (emitted p (Stop h p o)).map Event.view
    ∧ (Stop h (withControlsAccepted p a) o).state = (Stop h p o).state := by
  cases o <;>
    simp [emitted, withControlsAccepted, Stop, SetServiceStatus1, SetServiceStatus, invoke,
      WriteErrorLogEntry, WriteEventLogEntry, Event.view, Process.state]

theorem Pause_accepted_irrelevant (h : ServiceBaseH) (p : Process) (a : DWORD)
    (o : HookOutcome) :
    (emitted (withControlsAccepted p a) (Pause h (withControlsAccepted p a) o)).map Event.view
        = (emitted p (Pause h p o)).map Event.view
    ∧ (Pause h (withControlsAccepted p a) o).state = (Pause h p o).state := by
  cases o <;>
    simp [emitted, withControlsAccepted, Pause, SetServiceStatus1, SetServiceStatus, invoke,
      WriteErrorLogEntry, WriteEventLogEntry, Event.view, Process.state]

theorem Continue_accepted_irrelevant (h : ServiceBaseH) (p : Process) (a : DWORD)
    (o : HookOutcome) :
    (emitted (withControlsAccepted p a) (Continue h (withControlsAccepted p a) o)).map
          Event.view
        = (emitted p (Continue h p o)).map Event.view
    ∧ (Continue h (withControlsAccepted p a) o).state = (Continue h p o).state := by
  cases o <;>
    simp [emitted, withControlsAccepted, Continue, SetServiceStatus1, SetServiceStatus,
      invoke, WriteErrorLogEntry, WriteEventLogEntry, Event.view, Process.state]

theorem Shutdown_accepted_irrelevant (h : ServiceBaseH) (p : Process) (a : DWORD)
    (o : HookOutcome) :
    (emitted (withControlsAccepted p a) (Shutdown h (withControlsAccepted p a) o)).map
          Event.view
        = (emitted p (Shutdown h p o)).map Event.view
    ∧ (Shutdown h (withControlsAccepted p a) o).state = (Shutdown h p o).state := by
  cases o <;>
    simp [emitted, withControlsAccepted, Shutdown, SetServiceStatus1, SetServiceStatus,
      invoke, WriteErrorLogEntry, WriteEventLogEntry, Event.view, Process.state]

/-! ### The checkpoint counter -/

theorem reports_append (a b : List Event) : reports (a ++ b) = reports a ++ reports b := by
  induction a with
  | nil => rfl
  | cons e es ih => cases e <;> simp [reports, ih]

theorem pendingCount_append (a b : List SERVICE_STATUS) :
    pendingCount (a ++ b) = pendingCount a + pendingCount b := by
  induction a with
  | nil => simp [pendingCount]
  | cons r rs ih => simp [pendingCount, ih, Nat.add_assoc]

theorem CheckPointsRight_nil : CheckPointsRight [] := by
  intro pre r post h
  simp at h

theorem CheckPointsRight_concat (rs : List SERVICE_STATUS) (x : SERVICE_STATUS)
    (hrs : CheckPointsRight rs)
    (hx : x.dwCheckPoint =
      if isRunningOrStopped x.dwCurrentState then 0 else (pendingCount rs + 1) % DWORD_SIZE) :
    CheckPointsRight (rs ++ [x]) := by
  intro pre r post h
  rcases List.eq_nil_or_concat post with hpost | ⟨L, b, hpost⟩
  · subst hpost
    have hsplit := List.append_inj' h rfl
    obtain ⟨h1, h2⟩ := hsplit
    have hxr : x = r := by simpa using h2
    subst hxr
    subst h1
    exact hx
  · subst hpost
    have h2 : rs ++ [x] = (pre ++ r :: L) ++ [b] := by simpa using h
    have hsplit := List.append_inj' h2 rfl
    exact hrs pre r L hsplit.1

theorem CheckPointInv_processStart (service : ServiceBase) :
    CheckPointInv (processStart service) := by
  refine ⟨?_, ?_⟩
  · simp [processStart, reports, pendingCount, DWORD_SIZE]
  · simpa [processStart, reports] using CheckPointsRight_nil

theorem CheckPointInv_SetServiceStatus (p : Process) (s e w : DWORD)
    (hp : CheckPointInv p) : CheckPointInv (SetServiceStatus p s e w) := by
  obtain ⟨hc, hr⟩ := hp
  by_cases hs : isRunningOrStopped s = true
  · have hs2 : ((s == SERVICE_RUNNING) || (s == SERVICE_STOPPED)) = true := hs
    refine ⟨?_, ?_⟩
    · simp [SetServiceStatus, hs2, reports_append, reports, pendingCount_append,
        pendingCount, isRunningOrStopped, hc]
    · simp only [SetServiceStatus, reports_append, reports]
      apply CheckPointsRight_concat _ _ hr
      simp [hs2, isRunningOrStopped]
  · have hs1 : isRunningOrStopped s = false := by simpa using hs
    have hs2 : ((s == SERVICE_RUNNING) || (s == SERVICE_STOPPED)) = false := hs1
    refine ⟨?_, ?_⟩
    · simp [SetServiceStatus, hs2, reports_append, reports, pendingCount_append,
        pendingCount, isRunningOrStopped, hc]
    · simp only [SetServiceStatus, reports_append, reports]
      apply CheckPointsRight_concat _ _ hr
      simp [hs2, isRunningOrStopped, hc]

theorem CheckPointInv_invoke (p : Process) (k : Hook) (hp : CheckPointInv p) :
    CheckPointInv (invoke p k) := by
  simpa [CheckPointInv, invoke, reports_append, reports] using hp

theorem CheckPointInv_WriteEventLogEntry (p : Process) (m : String) (t : WORD)
    (hp : CheckPointInv p) : CheckPointInv (WriteEventLogEntry p m t) := by
  simpa [CheckPointInv, WriteEventLogEntry, reports_append, reports] using hp

theorem CheckPointInv_WriteErrorLogEntry (p : Process) (f : String) (c : DWORD)
    (hp : CheckPointInv p) : CheckPointInv (WriteErrorLogEntry p f c) :=
  CheckPointInv_WriteEventLogEntry p _ _ hp

theorem CheckPointInv_Start (h : ServiceBaseH) (p : Process) (o : HookOutcome)
    (hp : CheckPointInv p) : CheckPointInv (Start h p o) := by
  cases o <;>
    simp only [Start, SetServiceStatus1, SetServiceStatus2] <;>
    first
      | exact CheckPointInv_SetServiceStatus _ _ _ _
          (CheckPointInv_invoke _ _ (CheckPointInv_SetServiceStatus _ _ _ _ hp))
      | exact CheckPointInv_SetServiceStatus _ _ _ _
          (CheckPointInv_WriteErrorLogEntry _ _ _
            (CheckPointInv_invoke _ _ (CheckPointInv_SetServiceStatus _ _ _ _ hp)))
      | exact CheckPointInv_SetServiceStatus _ _ _ _
          (CheckPointInv_WriteEventLogEntry _ _ _
            (CheckPointInv_invoke _ _ (CheckPointInv_SetServiceStatus _ _ _ _ hp)))

theorem CheckPointInv_Stop (h : ServiceBaseH) (p : Process) (o : HookOutcome)
    (hp : CheckPointInv p) : CheckPointInv (Stop h p o) := by
  cases o <;>
    simp only [Stop, SetServiceStatus1] <;>
    first
      | exact CheckPointInv_SetServiceStatus _ _ _ _
          (CheckPointInv_invoke _ _ (CheckPointInv_SetServiceStatus _ _ _ _ hp))
      | exact CheckPointInv_SetServiceStatus _ _ _ _
          (CheckPointInv_WriteErrorLogEntry _ _ _
            (CheckPointInv_invoke _ _ (CheckPointInv_SetServiceStatus _ _ _ _ hp)))
      | exact CheckPointInv_SetServiceStatus _ _ _ _
          (CheckPointInv_WriteEventLogEntry _ _ _
            (CheckPointInv_invoke _ _ (CheckPointInv_SetServiceStatus _ _ _ _ hp)))

theorem CheckPointInv_Pause (h : ServiceBaseH) (p : Process) (o : HookOutcome)
    (hp : CheckPointInv p) : CheckPointInv (Pause h p o) := by
  cases o <;>
    simp only [Pause, SetServiceStatus1] <;>
    first
      | exact CheckPointInv_SetServiceStatus _ _ _ _
          (CheckPointInv_invoke _ _ (CheckPointInv_SetServiceStatus _ _ _ _ hp))
      | exact CheckPointInv_SetServiceStatus _ _ _ _
          (CheckPointInv_WriteErrorLogEntry _ _ _
            (CheckPointInv_invoke _ _ (CheckPointInv_SetServiceStatus _ _ _ _ hp)))
      | exact CheckPointInv_SetServiceStatus _ _ _ _
          (CheckPointInv_WriteEventLogEntry _ _ _
            (CheckPointInv_invoke _ _ (CheckPointInv_SetServiceStatus _ _ _ _ hp)))

theorem CheckPointInv_Continue (h : ServiceBaseH) (p : Process) (o : HookOutcome)
    (hp : CheckPointInv p) : CheckPointInv (Continue h p o) := by
  cases o <;>
    simp only [Continue, SetServiceStatus1] <;>
    first
      | exact CheckPointInv_SetServiceStatus _ _ _ _
          (CheckPointInv_invoke _ _ (CheckPointInv_SetServiceStatus _ _ _ _ hp))
      | exact CheckPointInv_SetServiceStatus _ _ _ _
          (CheckPointInv_WriteErrorLogEntry _ _ _
            (CheckPointInv_invoke _ _ (CheckPointInv_SetServiceStatus _ _ _ _ hp)))
      | exact CheckPointInv_SetServiceStatus _ _ _ _
          (CheckPointInv_WriteEventLogEntry _ _ _
            (CheckPointInv_invoke _ _ (CheckPointInv_SetServiceStatus _ _ _ _ hp)))

theorem CheckPointInv_Shutdown (h : ServiceBaseH) (p : Process) (o : HookOutcome)
    (hp : CheckPointInv p) : CheckPointInv (Shutdown h p o) := by
  cases o <;>
    simp only [Shutdown, SetServiceStatus1] <;>
    first
      | exact CheckPointInv_SetServiceStatus _ _ _ _ (CheckPointInv_invoke _ _ hp)
      | exact CheckPointInv_WriteErrorLogEntry _ _ _ (CheckPointInv_invoke _ _ hp)
      | exact CheckPointInv_WriteEventLogEntry _ _ _ (CheckPointInv_invoke _ _ hp)

theorem CheckPointInv_ServiceCtrlHandler (h : ServiceBaseH) (hooks : Hooks) (p : Process)
    (dwCtrl : DWORD) (hp : CheckPointInv p) :
    CheckPointInv (ServiceCtrlHandler h hooks p dwCtrl) := by
  unfold ServiceCtrlHandler
  split_ifs
  · exact CheckPointInv_Stop h p _ hp
  · exact CheckPointInv_Pause h p _ hp
  · exact CheckPointInv_Continue h p _ hp
  · exact CheckPointInv_Shutdown h p _ hp
  · exact hp
  · exact hp

theorem CheckPointInv_run (h : ServiceBaseH) (p : Process) (op : Op)
    (hp : CheckPointInv p) : CheckPointInv (Op.run h p op) := by
  cases op with
  | callSetServiceStatus s e w => exact CheckPointInv_SetServiceStatus p s e w hp
  | callStart o => exact CheckPointInv_Start h p o hp
  | callStop o => exact CheckPointInv_Stop h p o hp
  | callPause o => exact CheckPointInv_Pause h p o hp
  | callContinue o => exact CheckPointInv_Continue h p o hp
  | callShutdown o => exact CheckPointInv_Shutdown h p o hp
  | control hooks dwCtrl => exact CheckPointInv_ServiceCtrlHandler h hooks p dwCtrl hp

theorem CheckPointInv_runOps (h : ServiceBaseH) (ops : List Op) (p : Process)
    (hp : CheckPointInv p) : CheckPointInv (runOps h p ops) := by
  induction ops generalizing p with
  | nil => exact hp
  | cons op ops ih => exact ih _ (CheckPointInv_run h p op hp)

theorem pendingCount_eq_zero (mid : List SERVICE_STATUS)
    (hmid : ∀ m ∈ mid, isRunningOrStopped m.dwCurrentState = true) : pendingCount mid = 0 := by
  induction mid with
  | nil => rfl
  | cons m ms ih =>
      have hm : isRunningOrStopped m.dwCurrentState = true := hmid m (List.mem_cons_self m ms)
      have hms : pendingCount ms = 0 := ih (fun x hx => hmid x (List.mem_cons_of_mem m hx))
      simp [pendingCount, hm, hms]

/-! ### State changes of a transition issued in its From state -/

theorem Start_changes (h : ServiceBaseH) (p : Process) (o : HookOutcome)
    (hs : p.state = SERVICE_START_PENDING) :
    ∀ e ∈ stateChanges p.state (emitted p (Start h p o)), e ∈ specEdges := by
  rw [hs]
  cases o <;>
    simp [emitted, Start, SetServiceStatus1, SetServiceStatus2, SetServiceStatus, invoke,
      WriteErrorLogEntry, WriteEventLogEntry, stateChanges, specEdges,
      SERVICE_STOPPED, SERVICE_START_PENDING, SERVICE_STOP_PENDING, SERVICE_RUNNING,
      SERVICE_CONTINUE_PENDING, SERVICE_PAUSE_PENDING, SERVICE_PAUSED]

theorem Stop_changes (h : ServiceBaseH) (p : Process) (o : HookOutcome)
    (hs : p.state = SERVICE_RUNNING) :
    ∀ e ∈ stateChanges p.state (emitted p (Stop h p o)), e ∈ specEdges := by
  have hs2 : p.s_service.m_status.dwCurrentState = 4 := hs
  rw [hs]
  cases o <;>
    simp [emitted, Stop, SetServiceStatus1, SetServiceStatus, invoke,
      WriteErrorLogEntry, WriteEventLogEntry, stateChanges, specEdges, hs2,
      SERVICE_STOPPED, SERVICE_START_PENDING, SERVICE_STOP_PENDING, SERVICE_RUNNING,
      SERVICE_CONTINUE_PENDING, SERVICE_PAUSE_PENDING, SERVICE_PAUSED]

theorem Pause_changes (h : ServiceBaseH) (p : Process) (o : HookOutcome)
    (hs : p.state = SERVICE_RUNNING) :
    ∀ e ∈ stateChanges p.state (emitted p (Pause h p o)), e ∈ specEdges := by
  rw [hs]
  cases o <;>
    simp [emitted, Pause, SetServiceStatus1, SetServiceStatus, invoke,
      WriteErrorLogEntry, WriteEventLogEntry, stateChanges, specEdges,
      SERVICE_STOPPED, SERVICE_START_PENDING, SERVICE_STOP_PENDING, SERVICE_RUNNING,
      SERVICE_CONTINUE_PENDING, SERVICE_PAUSE_PENDING, SERVICE_PAUSED]

theorem Continue_changes (h : ServiceBaseH) (p : Process) (o : HookOutcome)
    (hs : p.state = SERVICE_PAUSED) :
    ∀ e ∈ stateChanges p.state (emitted p (Continue h p o)), e ∈ specEdges := by
  rw [hs]
  cases o <;>
    simp [emitted, Continue, SetServiceStatus1, SetServiceStatus, invoke,
      WriteErrorLogEntry, WriteEventLogEntry, stateChanges, specEdges,
      SERVICE_STOPPED, SERVICE_START_PENDING, SERVICE_STOP_PENDING, SERVICE_RUNNING,
      SERVICE_CONTINUE_PENDING, SERVICE_PAUSE_PENDING, SERVICE_PAUSED]

theorem Shutdown_changes (h : ServiceBaseH) (p : Process) (o : HookOutcome)
    (hs : p.state = SERVICE_RUNNING) :
    ∀ e ∈ stateChanges p.state (emitted p (Shutdown h p o)), e ∈ specEdges := by
  rw [hs]
  cases o <;>
    simp [emitted, Shutdown, SetServiceStatus1, SetServiceStatus, invoke,
      WriteErrorLogEntry, WriteEventLogEntry, stateChanges, specEdges,
      SERVICE_STOPPED, SERVICE_START_PENDING, SERVICE_STOP_PENDING, SERVICE_RUNNING,
      SERVICE_CONTINUE_PENDING, SERVICE_PAUSE_PENDING, SERVICE_PAUSED]

/-- Whatever the state held, a transition first writes its pending state. -/
theorem first_change (h : ServiceBaseH) (p : Process) (o : HookOutcome) :
    ((reports (emitted p (Stop h p o))).head?).map (fun r => r.dwCurrentState)
        = some SERVICE_STOP_PENDING
    ∧ ((reports (emitted p (Pause h p o))).head?).map (fun r => r.dwCurrentState)
        = some SERVICE_PAUSE_PENDING
    ∧ ((reports (emitted p (Continue h p o))).head?).map (fun r => r.dwCurrentState)
        = some SERVICE_CONTINUE_PENDING := by
  cases o <;>
    simp [emitted, Stop, Pause, Continue, SetServiceStatus1, SetServiceStatus, invoke,
      WriteErrorLogEntry, WriteEventLogEntry, reports]

/-! ### What a transition does, for every hook outcome -/

theorem Stop_runs (h : ServiceBaseH) (p : Process) (o : HookOutcome) :
    (Stop h p o).trace = p.trace ++ emitted p (Stop h p o)
    ∧ (emitted p (Stop h p o)).map Event.view
        = [Obs.report SERVICE_STOP_PENDING, Obs.hook Hook.OnStop]
          ++ (if o = HookOutcome.returns then [Obs.report SERVICE_STOPPED]
              else [Obs.log, Obs.report p.state])
    ∧ (Stop h p o).state = (if o = HookOutcome.returns then SERVICE_STOPPED else p.state) := by
  cases o <;>
    simp [emitted, Stop, SetServiceStatus1, SetServiceStatus, invoke, WriteErrorLogEntry,
      WriteEventLogEntry, Event.view, Process.state]

theorem Pause_runs (h : ServiceBaseH) (p : Process) (o : HookOutcome) :
    (Pause h p o).trace = p.trace ++ emitted p (Pause h p o)
    ∧ (emitted p (Pause h p o)).map Event.view
        = [Obs.report SERVICE_PAUSE_PENDING, Obs.hook Hook.OnPause]
          ++ (if o = HookOutcome.returns then [Obs.report SERVICE_PAUSED]
              else [Obs.log, Obs.report SERVICE_RUNNING])
    ∧ (Pause h p o).state
        = (if o = HookOutcome.returns then SERVICE_PAUSED else SERVICE_RUNNING) := by
  cases o <;>
    simp [emitted, Pause, SetServiceStatus1, SetServiceStatus, invoke, WriteErrorLogEntry,
      WriteEventLogEntry, Event.view, Process.state]

theorem Continue_runs (h : ServiceBaseH) (p : Process) (o : HookOutcome) :
    (Continue h p o).trace = p.trace ++ emitted p (Continue h p o)
    ∧ (emitted p (Continue h p o)).map Event.view
        = [Obs.report SERVICE_CONTINUE_PENDING, Obs.hook Hook.OnContinue]
          ++ (if o = HookOutcome.returns then [Obs.report SERVICE_RUNNING]
              else [Obs.log, Obs.report SERVICE_PAUSED])
    ∧ (Continue h p o).state
        = (if o = HookOutcome.returns then SERVICE_RUNNING else SERVICE_PAUSED) := by
  cases o <;>
    simp [emitted, Continue, SetServiceStatus1, SetServiceStatus, invoke, WriteErrorLogEntry,
      WriteEventLogEntry, Event.view, Process.state]

theorem Shutdown_runs (h : ServiceBaseH) (p : Process) (o : HookOutcome) :
    (Shutdown h p o).trace = p.trace ++ emitted p (Shutdown h p o)
    ∧ (emitted p (Shutdown h p o)).map Event.view
        = [Obs.hook Hook.OnShutdown]
          ++ (if o = HookOutcome.returns then [Obs.report SERVICE_STOPPED] else [Obs.log])
    ∧ (Shutdown h p o).state
        = (if o = HookOutcome.returns then SERVICE_STOPPED else p.state) := by
  cases o <;>
    simp [emitted, Shutdown, SetServiceStatus1, SetServiceStatus, invoke, WriteErrorLogEntry,
      WriteEventLogEntry, Event.view, Process.state]

/-- The states a transition writes, in order, whatever state is held. -/
theorem Stop_writes (h : ServiceBaseH) (p : Process) (o : HookOutcome) :
    (reports (emitted p (Stop h p o))).map (fun r => r.dwCurrentState)
      = [SERVICE_STOP_PENDING, if o = HookOutcome.returns then SERVICE_STOPPED else p.state] := by
  cases o <;>
    simp [emitted, Stop, SetServiceStatus1, SetServiceStatus, invoke, WriteErrorLogEntry,
      WriteEventLogEntry, reports, Process.state]

theorem Pause_writes (h : ServiceBaseH) (p : Process) (o : HookOutcome) :
    (reports (emitted p (Pause h p o))).map (fun r => r.dwCurrentState)
      = [SERVICE_PAUSE_PENDING,
          if o = HookOutcome.returns then SERVICE_PAUSED else SERVICE_RUNNING] := by
  cases o <;>
    simp [emitted, Pause, SetServiceStatus1, SetServiceStatus, invoke, WriteErrorLogEntry,
      WriteEventLogEntry, reports]

theorem Continue_writes (h : ServiceBaseH) (p : Process) (o : HookOutcome) :
    (reports (emitted p (Continue h p o))).map (fun r => r.dwCurrentState)
      = [SERVICE_CONTINUE_PENDING,
          if o = HookOutcome.returns then SERVICE_RUNNING else SERVICE_PAUSED] := by
  cases o <;>
    simp [emitted, Continue, SetServiceStatus1, SetServiceStatus, invoke, WriteErrorLogEntry,
      WriteEventLogEntry, reports]

theorem Shutdown_writes (h : ServiceBaseH) (p : Process) (o : HookOutcome) :
    (reports (emitted p (Shutdown h p o))).map (fun r => r.dwCurrentState)
      = (if o = HookOutcome.returns then [SERVICE_STOPPED] else []) := by
  cases o <;>
    simp [emitted, Shutdown, SetServiceStatus1, SetServiceStatus, invoke, WriteErrorLogEntry,
      WriteEventLogEntry, reports]

/-! ### The accepted controls are never written after construction -/

theorem SetServiceStatus_controlsAccepted (p : Process) (s e w : DWORD) :
    (SetServiceStatus p s e w).s_service.m_status.dwControlsAccepted
      = p.s_service.m_status.dwControlsAccepted := rfl

theorem Start_controlsAccepted (h : ServiceBaseH) (p : Process) (o : HookOutcome) :
    (Start h p o).s_service.m_status.dwControlsAccepted
      = p.s_service.m_status.dwControlsAccepted := by
  cases o <;> rfl

theorem Stop_controlsAccepted (h : ServiceBaseH) (p : Process) (o : HookOutcome) :
    (Stop h p o).s_service.m_status.dwControlsAccepted
      = p.s_service.m_status.dwControlsAccepted := by
  cases o <;> rfl

theorem Pause_controlsAccepted (h : ServiceBaseH) (p : Process) (o : HookOutcome) :
    (Pause h p o).s_service.m_status.dwControlsAccepted
      = p.s_service.m_status.dwControlsAccepted := by
  cases o <;> rfl

theorem Continue_controlsAccepted (h : ServiceBaseH) (p : Process) (o : HookOutcome) :
    (Continue h p o).s_service.m_status.dwControlsAccepted
      = p.s_service.m_status.dwControlsAccepted := by
  cases o <;> rfl

theorem Shutdown_controlsAccepted (h : ServiceBaseH) (p : Process) (o : HookOutcome) :
    (Shutdown h p o).s_service.m_status.dwControlsAccepted
      = p.s_service.m_status.dwControlsAccepted := by
  cases o <;> rfl

theorem ServiceCtrlHandler_controlsAccepted (h : ServiceBaseH) (hooks : Hooks) (p : Process)
    (dwCtrl : DWORD) :
    (ServiceCtrlHandler h hooks p dwCtrl).s_service.m_status.dwControlsAccepted
      = p.s_service.m_status.dwControlsAccepted := by
  unfold ServiceCtrlHandler
  split_ifs
  · exact Stop_controlsAccepted h p _
  · exact Pause_controlsAccepted h p _
  · exact Continue_controlsAccepted h p _
  · exact Shutdown_controlsAccepted h p _
  · rfl
  · rfl

theorem run_controlsAccepted (h : ServiceBaseH) (p : Process) (op : Op) :
    (Op.run h p op).s_service.m_status.dwControlsAccepted
      = p.s_service.m_status.dwControlsAccepted := by
  cases op with
  | callSetServiceStatus s e w => rfl
  | callStart o => exact Start_controlsAccepted h p o
  | callStop o => exact Stop_controlsAccepted h p o
  | callPause o => exact Pause_controlsAccepted h p o
  | callContinue o => exact Continue_controlsAccepted h p o
  | callShutdown o => exact Shutdown_controlsAccepted h p o
  | control hooks dwCtrl => exact ServiceCtrlHandler_controlsAccepted h hooks p dwCtrl

theorem runOps_controlsAccepted (h : ServiceBaseH) (ops : List Op) (p : Process) :
    (runOps h p ops).s_service.m_status.dwControlsAccepted
      = p.s_service.m_status.dwControlsAccepted := by
  induction ops generalizing p with
  | nil => rfl
  | cons op ops ih => exact (ih (Op.run h p op)).trans (run_controlsAccepted h p op)

/-- Dispatching Interrogate any number of times leaves the process as it was. -/
theorem runOps_interrogate (h : ServiceBaseH) (hooks : Hooks) (p : Process) (n : Nat) :
    runOps h p (List.replicate n (Op.control hooks SERVICE_CONTROL_INTERROGATE)) = p := by
  induction n with
  | zero => rfl
  | succ k ih => exact ih

/-! ### The worker loop -/

theorem workerLoop_all_false (reads : List BOOL) (hall : ∀ x ∈ reads, x = 0) :
    workerLoop reads = (loopPasses reads, false) := by
  induction reads with
  | nil => rfl
  | cons v vs ih =>
      have hv : v = 0 := hall v (List.mem_cons_self v vs)
      have hvs := ih (fun x hx => hall x (List.mem_cons_of_mem v hx))
      simp [workerLoop, hv, hvs, loopPasses, loopPass]

theorem workerLoop_first_true (pre : List BOOL) (v : BOOL) (post : List BOOL)
    (hpre : ∀ x ∈ pre, x = 0) (hv : v ≠ 0) :
    workerLoop (pre ++ v :: post) = (loopPasses pre ++ [WorkerEvent.readStopping v], true) := by
  induction pre with
  | nil => simp [workerLoop, hv, loopPasses]
  | cons u us ih =>
      have hu : u = 0 := hpre u (List.mem_cons_self u us)
      have hus := ih (fun x hx => hpre x (List.mem_cons_of_mem u hx))
      simp [workerLoop, hu, hus, loopPasses, loopPass]

theorem first_true_split (reads : List BOOL) :
    (∀ x ∈ reads, x = 0)
    ∨ ∃ (pre : List BOOL) (v : BOOL) (post : List BOOL),
        reads = pre ++ v :: post ∧ (∀ x ∈ pre, x = 0) ∧ v ≠ 0 := by
  induction reads with
  | nil => exact Or.inl (fun x hx => absurd hx (List.not_mem_nil x))
  | cons u us ih =>
      by_cases hu : u = 0
      · rcases ih with hall | ⟨pre, v, post, heq, hpre, hv⟩
        · left
          intro x hx
          rcases List.mem_cons.mp hx with hx1 | hx2
          · exact hx1.trans hu
          · exact hall x hx2
        · right
          refine ⟨u :: pre, v, post, by simp [heq], ?_, hv⟩
          intro x hx
          rcases List.mem_cons.mp hx with hx1 | hx2
          · exact hx1.trans hu
          · exact hpre x hx2
      · exact Or.inr ⟨[], u, us, rfl, fun x hx => absurd hx (List.not_mem_nil x), hu⟩

theorem stoppingReads_append (a b : List WorkerEvent) :
    stoppingReads (a ++ b) = stoppingReads a ++ stoppingReads b := by
  induction a with
  | nil => rfl
  | cons e es ih => cases e <;> simp [stoppingReads, ih]

theorem stoppingReads_loopPasses (vs : List BOOL) : stoppingReads (loopPasses vs) = vs := by
  induction vs with
  | nil => rfl
  | cons v vs ih => simp [loopPasses, loopPass, stoppingReads, ih]

theorem SetEvent_not_mem_loopPasses (vs : List BOOL) :
    WorkerEvent.SetEvent ∉ loopPasses vs := by
  induction vs with
  | nil => simp [loopPasses]
  | cons v vs ih => simp [loopPasses, loopPass, ih]

theorem count_SetEvent_loopPasses (vs : List BOOL) :
    (loopPasses vs).count WorkerEvent.SetEvent = 0 :=
  List.count_eq_zero.mpr (SetEvent_not_mem_loopPasses vs)

theorem ServiceWorkerThread_all_false (reads : List BOOL) (hall : ∀ x ∈ reads, x = 0) :
    WinService.ServiceWorkerThread reads
      = (WorkerEvent.InternetGetConnectedState :: loopPasses reads, false) := by
  simp [WinService.ServiceWorkerThread, workerLoop_all_false reads hall]

theorem ServiceWorkerThread_first_true (pre : List BOOL) (v : BOOL) (post : List BOOL)
    (hpre : ∀ x ∈ pre, x = 0) (hv : v ≠ 0) :
    WinService.ServiceWorkerThread (pre ++ v :: post)
      = (WorkerEvent.InternetGetConnectedState
          :: (loopPasses pre ++ [WorkerEvent.readStopping v, WorkerEvent.SetEvent]), true) := by
  simp [WinService.ServiceWorkerThread, workerLoop_first_true pre v post hpre hv]

/-- No event is signalled in the part of a run in which every read of
`m_fStopping` has yielded false. -/
theorem no_signal_before_true (reads : List BOOL) (done rest : List WorkerEvent)
    (hrun : (WinService.ServiceWorkerThread reads).1 = done ++ rest)
    (hdone : ∀ x ∈ stoppingReads done, x = 0) : WorkerEvent.SetEvent ∉ done := by
  intro hmem
  rcases first_true_split reads with hall | ⟨pre, v, post, heq, hpre, hv⟩
  · rw [ServiceWorkerThread_all_false reads hall] at hrun
    have hin : WorkerEvent.SetEvent
        ∈ WorkerEvent.InternetGetConnectedState :: loopPasses reads := by
      have hrun2 : WorkerEvent.InternetGetConnectedState :: loopPasses reads = done ++ rest :=
        hrun
      rw [hrun2]
      exact List.mem_append_left rest hmem
    rcases List.mem_cons.mp hin with h1 | h2
    · cases h1
    · exact SetEvent_not_mem_loopPasses reads h2
  · subst heq
    rw [ServiceWorkerThread_first_true pre v post hpre hv] at hrun
    have hrun2 : done ++ rest
        = (WorkerEvent.InternetGetConnectedState
            :: (loopPasses pre ++ [WorkerEvent.readStopping v])) ++ [WorkerEvent.SetEvent] := by
      have hrun3 : WorkerEvent.InternetGetConnectedState
          :: (loopPasses pre ++ [WorkerEvent.readStopping v, WorkerEvent.SetEvent])
          = done ++ rest := hrun
      rw [← hrun3]
      simp
    rcases List.append_eq_append_iff.mp hrun2 with ⟨a, ha, _⟩ | ⟨c, hc, _⟩
    · have hin : WorkerEvent.SetEvent
          ∈ WorkerEvent.InternetGetConnectedState
            :: (loopPasses pre ++ [WorkerEvent.readStopping v]) := by
        rw [ha]
        exact List.mem_append_left a hmem
      rcases List.mem_cons.mp hin with h1 | h2
      · cases h1
      · rcases List.mem_append.mp h2 with h3 | h4
        · exact SetEvent_not_mem_loopPasses pre h3
        · simp at h4
    · have hvmem : v ∈ stoppingReads done := by
        rw [hc]
        simp [stoppingReads_append, stoppingReads, stoppingReads_loopPasses]
      exact hv (hdone v hvmem)

end TraceLemmas

/-! ## The transitions -/

section Transitions
open ServiceBase

/-- C1: for Start, Stop, Pause and Continue, from any prior state, a hook that
returns normally gives exactly the calls report(pending state), hook,
report(final state), in that order, and the controller ends in the final
state; Shutdown with a hook that returns gives exactly one OnShutdown
invocation followed by report(Stopped). -/
theorem C1_success_trace (h : ServiceBaseH) (p : Process) :
    ((Start h p HookOutcome.returns).trace
        = p.trace ++ emitted p (Start h p HookOutcome.returns)
      ∧ (emitted p (Start h p HookOutcome.returns)).map Event.view
        = [Obs.report SERVICE_START_PENDING, Obs.hook Hook.OnStart, Obs.report SERVICE_RUNNING]
      ∧ (Start h p HookOutcome.returns).state = SERVICE_RUNNING)
    ∧ ((Stop h p HookOutcome.returns).trace
        = p.trace ++ emitted p (Stop h p HookOutcome.returns)
      ∧ (emitted p (Stop h p HookOutcome.returns)).map Event.view
        = [Obs.report SERVICE_STOP_PENDING, Obs.hook Hook.OnStop, Obs.report SERVICE_STOPPED]
      ∧ (Stop h p HookOutcome.returns).state = SERVICE_STOPPED)
    ∧ ((Pause h p HookOutcome.returns).trace
        = p.trace ++ emitted p (Pause h p HookOutcome.returns)
      ∧ (emitted p (Pause h p HookOutcome.returns)).map Event.view
        = [Obs.report SERVICE_PAUSE_PENDING, Obs.hook Hook.OnPause, Obs.report SERVICE_PAUSED]
      ∧ (Pause h p HookOutcome.returns).state = SERVICE_PAUSED)
    ∧ ((Continue h p HookOutcome.returns).trace
        = p.trace ++ emitted p (Continue h p HookOutcome.returns)
      ∧ (emitted p (Continue h p HookOutcome.returns)).map Event.view
        = [Obs.report SERVICE_CONTINUE_PENDING, Obs.hook Hook.OnContinue,
            Obs.report SERVICE_RUNNING]
      ∧ (Continue h p HookOutcome.returns).state = SERVICE_RUNNING)
    ∧ ((Shutdown h p HookOutcome.returns).trace
        = p.trace ++ emitted p (Shutdown h p HookOutcome.returns)
      ∧ (emitted p (Shutdown h p HookOutcome.returns)).map Event.view
        = [Obs.hook Hook.OnShutdown, Obs.report SERVICE_STOPPED]
      ∧ (Shutdown h p HookOutcome.returns).state = SERVICE_STOPPED) := by
  refine ⟨?_, ?_, ?_, ?_, ?_⟩ <;>
    simp [emitted, Start, Stop, Pause, Continue, Shutdown, SetServiceStatus1,
      SetServiceStatus, invoke, Event.view, Process.state]

/-- C2: when OnStart fails with cause code c, Start makes exactly two reports,
StartPending and then Stopped with exit code c; the controller ends Stopped
with exit code c, and no report made by Start has state Running. -/
theorem C2_start_failure (h : ServiceBaseH) (p : Process) (c : DWORD) :
    (Start h p (HookOutcome.throwsDWORD c)).trace
        = p.trace ++ emitted p (Start h p (HookOutcome.throwsDWORD c))
    ∧ (reports (emitted p (Start h p (HookOutcome.throwsDWORD c)))).map
          (fun r => r.dwCurrentState)
        = [SERVICE_START_PENDING, SERVICE_STOPPED]
    ∧ ((reports (emitted p (Start h p (HookOutcome.throwsDWORD c)))).getLast?).map
          (fun r => (r.dwCurrentState, r.dwWin32ExitCode))
        = some (SERVICE_STOPPED, c)
    ∧ (Start h p (HookOutcome.throwsDWORD c)).state = SERVICE_STOPPED
    ∧ (Start h p (HookOutcome.throwsDWORD c)).s_service.m_status.dwWin32ExitCode = c
    ∧ ∀ r ∈ reports (emitted p (Start h p (HookOutcome.throwsDWORD c))),
        r.dwCurrentState ≠ SERVICE_RUNNING := by
  simp [emitted, Start, SetServiceStatus1, SetServiceStatus2, SetServiceStatus, invoke,
    WriteErrorLogEntry, WriteEventLogEntry, reports, Process.state,
    SERVICE_START_PENDING, SERVICE_STOPPED, SERVICE_RUNNING]

/-- C3 (as stated) fails: the sample service is Stopped (its Start hook threw),
Stop is issued and OnStop throws; the reports are StopPending and then
Stopped, so a Stopped report is emitted. -/
theorem C3_counterexample :
    sampleStopped.state = SERVICE_STOPPED
    ∧ (reports (emitted sampleStopped
          (Stop stdHeader sampleStopped (HookOutcome.throwsDWORD 5)))).map
          (fun r => r.dwCurrentState)
        = [SERVICE_STOP_PENDING, SERVICE_STOPPED]
    ∧ ¬ (∀ r ∈ reports (emitted sampleStopped
          (Stop stdHeader sampleStopped (HookOutcome.throwsDWORD 5))),
        r.dwCurrentState ≠ SERVICE_STOPPED) := by
  decide

/-- C3 (amended): for every prior state s and both kinds of hook failure, when
OnStop fails, Stop makes exactly the reports StopPending and then s, and the
controller ends in s, the state held before Stop began; no Stopped report is
made provided s is not itself Stopped. -/
theorem C3_stop_failure_reverts (h : ServiceBaseH) (p : Process) (o : HookOutcome)
    (ho : o ≠ HookOutcome.returns) :
    (Stop h p o).trace = p.trace ++ emitted p (Stop h p o)
    ∧ (reports (emitted p (Stop h p o))).map (fun r => r.dwCurrentState)
        = [SERVICE_STOP_PENDING, p.state]
    ∧ (Stop h p o).state = p.state
    ∧ (p.state ≠ SERVICE_STOPPED →
        ∀ r ∈ reports (emitted p (Stop h p o)), r.dwCurrentState ≠ SERVICE_STOPPED) := by
  cases o with
  | returns => exact absurd rfl ho
  | throwsDWORD c =>
      simp [emitted, Stop, SetServiceStatus1, SetServiceStatus, invoke,
        WriteErrorLogEntry, WriteEventLogEntry, reports, Process.state,
        SERVICE_STOP_PENDING, SERVICE_STOPPED]
  | throwsOther =>
      simp [emitted, Stop, SetServiceStatus1, SetServiceStatus, invoke,
        WriteEventLogEntry, reports, Process.state,
        SERVICE_STOP_PENDING, SERVICE_STOPPED]

/-- C3 (amended) at the sample service: Stop issued while Running with a
failing OnStop reports StopPending and then Running, and no Stopped report. -/
theorem C3_stop_failure_reverts_witness :
    HookOutcome.throwsOther ≠ HookOutcome.returns
    ∧ sampleRunning.state ≠ SERVICE_STOPPED
    ∧ (reports (emitted sampleRunning
          (Stop stdHeader sampleRunning HookOutcome.throwsOther))).map
          (fun r => r.dwCurrentState)
        = [SERVICE_STOP_PENDING, sampleRunning.state]
    ∧ ∀ r ∈ reports (emitted sampleRunning
          (Stop stdHeader sampleRunning HookOutcome.throwsOther)),
        r.dwCurrentState ≠ SERVICE_STOPPED :=
  ⟨by decide, by decide,
    (C3_stop_failure_reverts stdHeader sampleRunning HookOutcome.throwsOther (by decide)).2.1,
    (C3_stop_failure_reverts stdHeader sampleRunning HookOutcome.throwsOther
      (by decide)).2.2.2 (by decide)⟩

/-- C4 (as stated) fails: Pause issued while Paused with a failing OnPause
leaves the controller Running, and Continue issued while Running with a
failing OnContinue leaves it Paused; neither is the state held before. -/
theorem C4_counterexample :
    pausablePaused.state = SERVICE_PAUSED
    ∧ (Pause stdHeader pausablePaused (HookOutcome.throwsDWORD 5)).state = SERVICE_RUNNING
    ∧ (Pause stdHeader pausablePaused (HookOutcome.throwsDWORD 5)).state
        ≠ pausablePaused.state
    ∧ sampleRunning.state = SERVICE_RUNNING
    ∧ (Continue stdHeader sampleRunning HookOutcome.throwsOther).state = SERVICE_PAUSED
    ∧ (Continue stdHeader sampleRunning HookOutcome.throwsOther).state
        ≠ sampleRunning.state := by
  decide

/-- C4 (amended): when OnPause fails the controller ends Running, and when
OnContinue fails it ends Paused, whatever state s it held before; so s is
restored exactly when s is Running (for Pause) or Paused (for Continue). -/
theorem C4_pause_continue_failure (h : ServiceBaseH) (p : Process) (o : HookOutcome)
    (ho : o ≠ HookOutcome.returns) :
    (Pause h p o).state = SERVICE_RUNNING
    ∧ (Continue h p o).state = SERVICE_PAUSED
    ∧ ((Pause h p o).state = p.state ↔ p.state = SERVICE_RUNNING)
    ∧ ((Continue h p o).state = p.state ↔ p.state = SERVICE_PAUSED) := by
  have hp : (Pause h p o).state = SERVICE_RUNNING := by
    cases o with
    | returns => exact absurd rfl ho
    | throwsDWORD c => rfl
    | throwsOther => rfl
  have hc : (Continue h p o).state = SERVICE_PAUSED := by
    cases o with
    | returns => exact absurd rfl ho
    | throwsDWORD c => rfl
    | throwsOther => rfl
  refine ⟨hp, hc, ?_, ?_⟩
  · rw [hp]; exact eq_comm
  · rw [hc]; exact eq_comm

/-- C4 (amended) at the sample service, Running, with hooks throwing 5. -/
theorem C4_pause_continue_failure_witness :
    HookOutcome.throwsDWORD 5 ≠ HookOutcome.returns
    ∧ (Pause stdHeader sampleRunning (HookOutcome.throwsDWORD 5)).state = SERVICE_RUNNING
    ∧ (Continue stdHeader sampleRunning (HookOutcome.throwsDWORD 5)).state = SERVICE_PAUSED :=
  ⟨by decide,
    (C4_pause_continue_failure stdHeader sampleRunning (HookOutcome.throwsDWORD 5)
      (by decide)).1,
    (C4_pause_continue_failure stdHeader sampleRunning (HookOutcome.throwsDWORD 5)
      (by decide)).2.1⟩

/-- C5 (as stated) fails: the sample service is Running, Shutdown is issued and
OnShutdown throws; the controller is still Running afterwards and no report
was made. -/
theorem C5_counterexample :
    sampleRunning.state = SERVICE_RUNNING
    ∧ (Shutdown stdHeader sampleRunning (HookOutcome.throwsDWORD 5)).state = SERVICE_RUNNING
    ∧ (Shutdown stdHeader sampleRunning (HookOutcome.throwsDWORD 5)).state ≠ SERVICE_STOPPED
    ∧ (Shutdown stdHeader sampleRunning HookOutcome.throwsOther).state ≠ SERVICE_STOPPED
    ∧ reports (emitted sampleRunning
        (Shutdown stdHeader sampleRunning (HookOutcome.throwsDWORD 5))) = [] := by
  decide

/-- C5 (amended): for every prior state and both kinds of hook failure, when
OnShutdown fails, Shutdown invokes the hook, requests one error-type
event-log entry and does nothing else: no report is made, the status record
and the checkpoint counter are left as they were, so the final state is the
prior state (Stopped only if it already was). -/
theorem C5_shutdown_failure (h : ServiceBaseH) (p : Process) (o : HookOutcome)
    (ho : o ≠ HookOutcome.returns) :
    (Shutdown h p o).trace = p.trace ++ emitted p (Shutdown h p o)
    ∧ (emitted p (Shutdown h p o)).map Event.view = [Obs.hook Hook.OnShutdown, Obs.log]
    ∧ (logCalls (emitted p (Shutdown h p o))).map (fun l => l.2) = [EVENTLOG_ERROR_TYPE]
    ∧ reports (emitted p (Shutdown h p o)) = []
    ∧ (Shutdown h p o).s_service = p.s_service
    ∧ (Shutdown h p o).dwCheckPoint = p.dwCheckPoint
    ∧ (Shutdown h p o).state = p.state := by
  cases o with
  | returns => exact absurd rfl ho
  | throwsDWORD c =>
      simp [emitted, Shutdown, invoke, WriteErrorLogEntry, WriteEventLogEntry, reports,
        logCalls, Event.view, Process.state]
  | throwsOther =>
      simp [emitted, Shutdown, invoke, WriteEventLogEntry, reports, logCalls, Event.view,
        Process.state]

/-- C5 (amended) at the sample service: Shutdown issued while Running with
OnShutdown throwing 5 leaves the state as it was. -/
theorem C5_shutdown_failure_witness :
    HookOutcome.throwsDWORD 5 ≠ HookOutcome.returns
    ∧ (Shutdown stdHeader sampleRunning (HookOutcome.throwsDWORD 5)).state
        = sampleRunning.state :=
  ⟨by decide,
    (C5_shutdown_failure stdHeader sampleRunning (HookOutcome.throwsDWORD 5)
      (by decide)).2.2.2.2.2.2⟩

/-- C6 (as stated) fails: the sample service was built without pause/continue
(its accepted controls are Stop and Shutdown only) and is Running; the Pause
control code is dispatched. OnPause is invoked, two reports are made and the
controller ends Paused. -/
theorem C6_counterexample :
    sampleRunning.s_service.m_status.dwControlsAccepted
        = SERVICE_ACCEPT_STOP ||| SERVICE_ACCEPT_SHUTDOWN
    ∧ sampleRunning.s_service.m_status.dwControlsAccepted &&& SERVICE_ACCEPT_PAUSE_CONTINUE = 0
    ∧ sampleRunning.state = SERVICE_RUNNING
    ∧ hookCalls (emitted sampleRunning
          (ServiceCtrlHandler stdHeader baseHooks sampleRunning SERVICE_CONTROL_PAUSE))
        = [Hook.OnPause]
    ∧ (reports (emitted sampleRunning
          (ServiceCtrlHandler stdHeader baseHooks sampleRunning SERVICE_CONTROL_PAUSE))).map
          (fun r => r.dwCurrentState)
        = [SERVICE_PAUSE_PENDING, SERVICE_PAUSED]
    ∧ (ServiceCtrlHandler stdHeader baseHooks sampleRunning SERVICE_CONTROL_PAUSE).state
        = SERVICE_PAUSED
    ∧ (ServiceCtrlHandler stdHeader baseHooks sampleRunning
          SERVICE_CONTROL_PAUSE).s_service.m_status
        ≠ sampleRunning.s_service.m_status := by
  decide

/-- C6 (amended): the control handler does not consult the accepted controls.
A control code other than Stop, Pause, Continue and Shutdown leaves the whole
process as it was (no field changes, no hook, no report). Each of Stop,
Pause, Continue and Shutdown invokes its hook exactly once and runs its whole
transition, whatever the accepted controls hold: Stop, Pause and Continue
report the pending state, invoke the hook and then report the final state
(Stopped, Paused, Running) or, when the hook fails, write a log entry and
report the revert state (the state held before, Running, Paused); Shutdown
invokes the hook and then reports Stopped or, when the hook fails, writes a
log entry. The controller ends in the state last reported, and the calls made
and the resulting state are the same for every value of the accepted
controls. -/
theorem C6_dispatch_regardless_of_accepted (h : ServiceBaseH) (hooks : Hooks) (p : Process)
    (dwCtrl a : DWORD) :
    (dwCtrl ≠ SERVICE_CONTROL_STOP → dwCtrl ≠ SERVICE_CONTROL_PAUSE →
      dwCtrl ≠ SERVICE_CONTROL_CONTINUE → dwCtrl ≠ SERVICE_CONTROL_SHUTDOWN →
      ServiceCtrlHandler h hooks p dwCtrl = p)
    ∧ hookCalls (emitted p (ServiceCtrlHandler h hooks p SERVICE_CONTROL_STOP))
        = [Hook.OnStop]
    ∧ hookCalls (emitted p (ServiceCtrlHandler h hooks p SERVICE_CONTROL_PAUSE))
        = [Hook.OnPause]
    ∧ hookCalls (emitted p (ServiceCtrlHandler h hooks p SERVICE_CONTROL_CONTINUE))
        = [Hook.OnContinue]
    ∧ hookCalls (emitted p (ServiceCtrlHandler h hooks p SERVICE_CONTROL_SHUTDOWN))
        = [Hook.OnShutdown]
    ∧ ((ServiceCtrlHandler h hooks p SERVICE_CONTROL_STOP).trace
          = p.trace ++ emitted p (ServiceCtrlHandler h hooks p SERVICE_CONTROL_STOP)
      ∧ (emitted p (ServiceCtrlHandler h hooks p SERVICE_CONTROL_STOP)).map Event.view
          = [Obs.report SERVICE_STOP_PENDING, Obs.hook Hook.OnStop]
            ++ (if hooks.OnStop = HookOutcome.returns then [Obs.report SERVICE_STOPPED]
                else [Obs.log, Obs.report p.state])
      ∧ (ServiceCtrlHandler h hooks p SERVICE_CONTROL_STOP).state
          = (if hooks.OnStop = HookOutcome.returns then SERVICE_STOPPED else p.state))
    ∧ ((ServiceCtrlHandler h hooks p SERVICE_CONTROL_PAUSE).trace
          = p.trace ++ emitted p (ServiceCtrlHandler h hooks p SERVICE_CONTROL_PAUSE)
      ∧ (emitted p (ServiceCtrlHandler h hooks p SERVICE_CONTROL_PAUSE)).map Event.view
          = [Obs.report SERVICE_PAUSE_PENDING, Obs.hook Hook.OnPause]
            ++ (if hooks.OnPause = HookOutcome.returns then [Obs.report SERVICE_PAUSED]
                else [Obs.log, Obs.report SERVICE_RUNNING])
      ∧ (ServiceCtrlHandler h hooks p SERVICE_CONTROL_PAUSE).state
          = (if hooks.OnPause = HookOutcome.returns then SERVICE_PAUSED
              else SERVICE_RUNNING))
    ∧ ((ServiceCtrlHandler h hooks p SERVICE_CONTROL_CONTINUE).trace
          = p.trace ++ emitted p (ServiceCtrlHandler h hooks p SERVICE_CONTROL_CONTINUE)
      ∧ (emitted p (ServiceCtrlHandler h hooks p SERVICE_CONTROL_CONTINUE)).map Event.view
          = [Obs.report SERVICE_CONTINUE_PENDING, Obs.hook Hook.OnContinue]
            ++ (if hooks.OnContinue = HookOutcome.returns then [Obs.report SERVICE_RUNNING]
                else [Obs.log, Obs.report SERVICE_PAUSED])
      ∧ (ServiceCtrlHandler h hooks p SERVICE_CONTROL_CONTINUE).state
          = (if hooks.OnContinue = HookOutcome.returns then SERVICE_RUNNING
              else SERVICE_PAUSED))
    ∧ ((ServiceCtrlHandler h hooks p SERVICE_CONTROL_SHUTDOWN).trace
          = p.trace ++ emitted p (ServiceCtrlHandler h hooks p SERVICE_CONTROL_SHUTDOWN)
      ∧ (emitted p (ServiceCtrlHandler h hooks p SERVICE_CONTROL_SHUTDOWN)).map Event.view
          = [Obs.hook Hook.OnShutdown]
            ++ (if hooks.OnShutdown = HookOutcome.returns then [Obs.report SERVICE_STOPPED]
                else [Obs.log])
      ∧ (ServiceCtrlHandler h hooks p SERVICE_CONTROL_SHUTDOWN).state
          = (if hooks.OnShutdown = HookOutcome.returns then SERVICE_STOPPED else p.state))
    ∧ (emitted (withControlsAccepted p a)
          (ServiceCtrlHandler h hooks (withControlsAccepted p a) dwCtrl)).map Event.view
        = (emitted p (ServiceCtrlHandler h hooks p dwCtrl)).map Event.view
    ∧ (ServiceCtrlHandler h hooks (withControlsAccepted p a) dwCtrl).state
        = (ServiceCtrlHandler h hooks p dwCtrl).state := by
  refine ⟨?_, ?_, ?_, ?_, ?_, ?_, ?_, ?_, ?_, ?_⟩
  · intro h1 h2 h3 h4
    simp [ServiceCtrlHandler, h1, h2, h3, h4]
  · exact (Stop_hookCalls h p hooks.OnStop).2
  · exact (Pause_hookCalls h p hooks.OnPause).2
  · exact (Continue_hookCalls h p hooks.OnContinue).2
  · exact (Shutdown_hookCalls h p hooks.OnShutdown).2
  · exact Stop_runs h p hooks.OnStop
  · exact Pause_runs h p hooks.OnPause
  · exact Continue_runs h p hooks.OnContinue
  · exact Shutdown_runs h p hooks.OnShutdown
  · unfold ServiceCtrlHandler
    split_ifs
    · exact Stop_accepted_irrelevant h p a hooks.OnStop
    · exact Pause_accepted_irrelevant h p a hooks.OnPause
    · exact Continue_accepted_irrelevant h p a hooks.OnContinue
    · exact Shutdown_accepted_irrelevant h p a hooks.OnShutdown
    · simp [emitted, withControlsAccepted, Process.state]
    · simp [emitted, withControlsAccepted, Process.state]

/-- C6 (amended) at the sample service, built without pause/continue: the
Interrogate code is none of the four and leaves the process as it was, and
the Pause code runs the whole Pause transition. -/
theorem C6_dispatch_regardless_of_accepted_witness :
    SERVICE_CONTROL_INTERROGATE ≠ SERVICE_CONTROL_STOP
    ∧ SERVICE_CONTROL_INTERROGATE ≠ SERVICE_CONTROL_PAUSE
    ∧ SERVICE_CONTROL_INTERROGATE ≠ SERVICE_CONTROL_CONTINUE
    ∧ SERVICE_CONTROL_INTERROGATE ≠ SERVICE_CONTROL_SHUTDOWN
    ∧ ServiceCtrlHandler stdHeader baseHooks sampleRunning SERVICE_CONTROL_INTERROGATE
        = sampleRunning
    ∧ (emitted sampleRunning
          (ServiceCtrlHandler stdHeader baseHooks sampleRunning SERVICE_CONTROL_PAUSE)).map
          Event.view
        = [Obs.report SERVICE_PAUSE_PENDING, Obs.hook Hook.OnPause]
          ++ (if baseHooks.OnPause = HookOutcome.returns then [Obs.report SERVICE_PAUSED]
              else [Obs.log, Obs.report SERVICE_RUNNING]) :=
  ⟨by decide, by decide, by decide, by decide,
    (C6_dispatch_regardless_of_accepted stdHeader baseHooks sampleRunning
      SERVICE_CONTROL_INTERROGATE 0).1 (by decide) (by decide) (by decide) (by decide),
    (C6_dispatch_regardless_of_accepted stdHeader baseHooks sampleRunning
      SERVICE_CONTROL_INTERROGATE 0).2.2.2.2.2.2.1.2.1⟩

/-- C7 (as stated) fails: the sample service is Running, Stop is issued and
OnStop throws the cause code 87; the revert report and the status record
carry exit code 0. No default exit code of SetServiceStatus makes the revert
report of Stop carry every cause code. -/
theorem C7_counterexample :
    (Stop stdHeader sampleRunning (HookOutcome.throwsDWORD 87)).s_service.m_status.dwWin32ExitCode
        = 0
    ∧ ((reports (emitted sampleRunning
          (Stop stdHeader sampleRunning (HookOutcome.throwsDWORD 87)))).getLast?).map
          (fun r => (r.dwCurrentState, r.dwWin32ExitCode))
        = some (SERVICE_RUNNING, 0)
    ∧ ¬ ∃ h : ServiceBaseH, ∀ c : DWORD,
        (Stop h sampleRunning (HookOutcome.throwsDWORD c)).s_service.m_status.dwWin32ExitCode
          = c := by
  refine ⟨by decide, by decide, ?_⟩
  rintro ⟨h, hc⟩
  have h0 : h.dwWin32ExitCode = 0 := hc 0
  have h1 : h.dwWin32ExitCode = 1 := hc 1
  exact absurd (h0.symm.trans h1) (by decide)

/-- C7 (amended): when the hook fails with the cause code c, the report after
the failure and the status record carry exit code c for Start; for Stop,
Pause and Continue the revert report is made with the default exit code of
SetServiceStatus, and it and the status record carry that default, not c. -/
theorem C7_exit_code_after_failure (h : ServiceBaseH) (p : Process) (c : DWORD) :
    (((reports (emitted p (Start h p (HookOutcome.throwsDWORD c)))).getLast?).map
          (fun r => r.dwWin32ExitCode) = some c
      ∧ (Start h p (HookOutcome.throwsDWORD c)).s_service.m_status.dwWin32ExitCode = c)
    ∧ (((reports (emitted p (Stop h p (HookOutcome.throwsDWORD c)))).getLast?).map
          (fun r => r.dwWin32ExitCode) = some h.dwWin32ExitCode
      ∧ (Stop h p (HookOutcome.throwsDWORD c)).s_service.m_status.dwWin32ExitCode
          = h.dwWin32ExitCode)
    ∧ (((reports (emitted p (Pause h p (HookOutcome.throwsDWORD c)))).getLast?).map
          (fun r => r.dwWin32ExitCode) = some h.dwWin32ExitCode
      ∧ (Pause h p (HookOutcome.throwsDWORD c)).s_service.m_status.dwWin32ExitCode
          = h.dwWin32ExitCode)
    ∧ (((reports (emitted p (Continue h p (HookOutcome.throwsDWORD c)))).getLast?).map
          (fun r => r.dwWin32ExitCode) = some h.dwWin32ExitCode
      ∧ (Continue h p (HookOutcome.throwsDWORD c)).s_service.m_status.dwWin32ExitCode
          = h.dwWin32ExitCode) := by
  refine ⟨?_, ?_, ?_, ?_⟩ <;>
    simp [emitted, Start, Stop, Pause, Continue, SetServiceStatus1, SetServiceStatus2,
      SetServiceStatus, invoke, WriteErrorLogEntry, WriteEventLogEntry, reports]

/-- C8: in every run of the process from its start (any sequence of calls of
SetServiceStatus, Start, Stop, Pause, Continue, Shutdown and control codes,
under any hook outcomes), a report whose state is Running or Stopped carries
checkpoint 0, and the k-th report in any other state carries checkpoint
k modulo 2^32, which is not 0 while k is below 2^32; two such reports with
only Running/Stopped reports between them differ by exactly 1 (modulo 2^32). -/
theorem C8_checkpoint_sequence (h : ServiceBaseH) (service : ServiceBase) (ops : List Op) :
    (∀ (pre : List SERVICE_STATUS) (r : SERVICE_STATUS) (post : List SERVICE_STATUS),
      reports (runOps h (processStart service) ops).trace = pre ++ r :: post →
      (isRunningOrStopped r.dwCurrentState = true → r.dwCheckPoint = 0)
      ∧ (isRunningOrStopped r.dwCurrentState = false →
          r.dwCheckPoint = (pendingCount pre + 1) % 2 ^ 32
          ∧ (pendingCount pre + 1 < 2 ^ 32 → r.dwCheckPoint ≠ 0)))
    ∧ (∀ (pre : List SERVICE_STATUS) (r : SERVICE_STATUS) (mid : List SERVICE_STATUS)
        (r2 : SERVICE_STATUS) (post : List SERVICE_STATUS),
      reports (runOps h (processStart service) ops).trace = pre ++ r :: (mid ++ r2 :: post) →
      isRunningOrStopped r.dwCurrentState = false →
      isRunningOrStopped r2.dwCurrentState = false →
      (∀ m ∈ mid, isRunningOrStopped m.dwCurrentState = true) →
      r2.dwCheckPoint = (r.dwCheckPoint + 1) % 2 ^ 32) := by
  have hinv : CheckPointsRight (reports (runOps h (processStart service) ops).trace) :=
    (CheckPointInv_runOps h ops _ (CheckPointInv_processStart service)).2
  have key : ∀ (pre : List SERVICE_STATUS) (r : SERVICE_STATUS) (post : List SERVICE_STATUS),
      reports (runOps h (processStart service) ops).trace = pre ++ r :: post →
      isRunningOrStopped r.dwCurrentState = false →
      r.dwCheckPoint = (pendingCount pre + 1) % 2 ^ 32 := by
    intro pre r post heq hf
    have hr := hinv pre r post heq
    simpa [hf, DWORD_SIZE] using hr
  refine ⟨?_, ?_⟩
  · intro pre r post heq
    refine ⟨?_, ?_⟩
    · intro ht
      have hr := hinv pre r post heq
      simpa [ht] using hr
    · intro hf
      refine ⟨key pre r post heq hf, ?_⟩
      intro hlt
      rw [key pre r post heq hf, Nat.mod_eq_of_lt hlt]
      exact Nat.succ_ne_zero _
  · intro pre r mid r2 post heq hf hf2 hmid
    have h1 := key pre r (mid ++ r2 :: post) heq hf
    have heq2 : reports (runOps h (processStart service) ops).trace
        = (pre ++ r :: mid) ++ r2 :: post := by
      simpa using heq
    have h2 := key (pre ++ r :: mid) r2 post heq2 hf2
    have hcount : pendingCount (pre ++ r :: mid) = pendingCount pre + 1 := by
      simp [pendingCount_append, pendingCount, hf, pendingCount_eq_zero mid hmid]
    rw [h2, h1, hcount, Nat.mod_add_mod]

/-- C8 at the sample run: the third report (StopPending) is the second pending
one and carries checkpoint 2, one more than the first (StartPending). -/
theorem C8_checkpoint_sequence_witness :
    (sampleReports = sampleReports.take 2
        ++ sampleReports.getD 2 sampleService.m_status :: sampleReports.drop 3
      ∧ isRunningOrStopped (sampleReports.getD 2 sampleService.m_status).dwCurrentState = false
      ∧ pendingCount (sampleReports.take 2) + 1 < 2 ^ 32
      ∧ (sampleReports.getD 2 sampleService.m_status).dwCheckPoint
          = (pendingCount (sampleReports.take 2) + 1) % 2 ^ 32
      ∧ (sampleReports.getD 2 sampleService.m_status).dwCheckPoint ≠ 0)
    ∧ (sampleReports = [] ++ sampleReports.getD 0 sampleService.m_status
          :: ([sampleReports.getD 1 sampleService.m_status]
            ++ sampleReports.getD 2 sampleService.m_status :: sampleReports.drop 3)
      ∧ isRunningOrStopped (sampleReports.getD 0 sampleService.m_status).dwCurrentState = false
      ∧ (∀ m ∈ [sampleReports.getD 1 sampleService.m_status],
          isRunningOrStopped m.dwCurrentState = true)
      ∧ (sampleReports.getD 2 sampleService.m_status).dwCheckPoint
          = ((sampleReports.getD 0 sampleService.m_status).dwCheckPoint + 1) % 2 ^ 32) :=
  ⟨⟨by decide, by decide, by decide,
      ((C8_checkpoint_sequence stdHeader sampleService sampleOps).1
        (sampleReports.take 2) (sampleReports.getD 2 sampleService.m_status)
        (sampleReports.drop 3) (by decide)).2 (by decide) |>.1,
      ((C8_checkpoint_sequence stdHeader sampleService sampleOps).1
        (sampleReports.take 2) (sampleReports.getD 2 sampleService.m_status)
        (sampleReports.drop 3) (by decide)).2 (by decide) |>.2 (by decide)⟩,
    ⟨by decide, by decide, by decide,
      (C8_checkpoint_sequence stdHeader sampleService sampleOps).2
        [] (sampleReports.getD 0 sampleService.m_status)
        [sampleReports.getD 1 sampleService.m_status]
        (sampleReports.getD 2 sampleService.m_status) (sampleReports.drop 3)
        (by decide) (by decide) (by decide) (by decide)⟩⟩

/-- C9 (as stated) fails: on the freshly constructed sample service (stop yes,
shutdown yes, pause/continue no), with no report made before, Start with a
succeeding OnStart reports StartPending with checkpoint 1, not 0, and then
Running with checkpoint 0. -/
theorem C9_counterexample :
    (reports (emitted (processStart sampleService)
        (Start stdHeader (processStart sampleService) HookOutcome.returns))).map
        (fun r => (r.dwCurrentState, r.dwCheckPoint))
      = [(SERVICE_START_PENDING, 1), (SERVICE_RUNNING, 0)]
    ∧ (reports (emitted (processStart sampleService)
        (Start stdHeader (processStart sampleService) HookOutcome.returns))).map
        (fun r => (r.dwCurrentState, r.dwCheckPoint))
      ≠ [(SERVICE_START_PENDING, 0), (SERVICE_RUNNING, 0)] := by
  decide

/-- C9 (amended): on a freshly constructed controller with capabilities stop
yes, shutdown yes, pause/continue no, with no report made before, Start with a
succeeding OnStart makes exactly two reports: first StartPending with
checkpoint 1, then Running with checkpoint 0. -/
theorem C9_first_start_reports (h : ServiceBaseH) (pszServiceName : Option String) :
    (reports (emitted
        (processStart (ServiceBase.ServiceBase pszServiceName TRUE TRUE FALSE))
        (Start h (processStart (ServiceBase.ServiceBase pszServiceName TRUE TRUE FALSE))
          HookOutcome.returns))).map
        (fun r => (r.dwCurrentState, r.dwCheckPoint))
      = [(SERVICE_START_PENDING, 1), (SERVICE_RUNNING, 0)] := by
  simp [emitted, processStart, Start, SetServiceStatus1, SetServiceStatus, invoke, reports,
    SERVICE_START_PENDING, SERVICE_RUNNING, SERVICE_STOPPED]

/-- C10 (as stated) fails: Continue dispatched while Running takes the state
from Running to ContinuePending, and Pause dispatched while Paused takes it
from Paused to PausePending; neither is an edge of the table. -/
theorem C10_counterexample :
    sampleRunning.state = SERVICE_RUNNING
    ∧ stateChanges sampleRunning.state (emitted sampleRunning
          (ServiceCtrlHandler stdHeader baseHooks sampleRunning SERVICE_CONTROL_CONTINUE))
        = [(SERVICE_RUNNING, SERVICE_CONTINUE_PENDING),
           (SERVICE_CONTINUE_PENDING, SERVICE_RUNNING)]
    ∧ (SERVICE_RUNNING, SERVICE_CONTINUE_PENDING) ∉ specEdges
    ∧ pausablePaused.state = SERVICE_PAUSED
    ∧ stateChanges pausablePaused.state (emitted pausablePaused
          (ServiceCtrlHandler stdHeader baseHooks pausablePaused SERVICE_CONTROL_PAUSE))
        = [(SERVICE_PAUSED, SERVICE_PAUSE_PENDING), (SERVICE_PAUSE_PENDING, SERVICE_PAUSED)]
    ∧ (SERVICE_PAUSED, SERVICE_PAUSE_PENDING) ∉ specEdges := by
  decide

/-- C10 (amended): for every hook outcome, when Stop, Pause or Shutdown is
dispatched while Running, when Continue is dispatched while Paused, and when
Start runs from StartPending, each change of the state made while handling it
is an edge of the table. The handler does not look at the state held: in
every state, Stop, Pause and Continue first write their pending state and then
their final state (Stopped, Paused, Running) or, when the hook fails, the
revert state (the state held before, Running, Paused), and Shutdown writes
Stopped when its hook returns and nothing when it fails. -/
theorem C10_changes_along_edges (h : ServiceBaseH) (hooks : Hooks) (p : Process) :
    (p.state = SERVICE_RUNNING →
      ∀ e ∈ stateChanges p.state
          (emitted p (ServiceCtrlHandler h hooks p SERVICE_CONTROL_STOP)), e ∈ specEdges)
    ∧ (p.state = SERVICE_RUNNING →
      ∀ e ∈ stateChanges p.state
          (emitted p (ServiceCtrlHandler h hooks p SERVICE_CONTROL_PAUSE)), e ∈ specEdges)
    ∧ (p.state = SERVICE_PAUSED →
      ∀ e ∈ stateChanges p.state
          (emitted p (ServiceCtrlHandler h hooks p SERVICE_CONTROL_CONTINUE)), e ∈ specEdges)
    ∧ (p.state = SERVICE_RUNNING →
      ∀ e ∈ stateChanges p.state
          (emitted p (ServiceCtrlHandler h hooks p SERVICE_CONTROL_SHUTDOWN)), e ∈ specEdges)
    ∧ (p.state = SERVICE_START_PENDING →
      ∀ e ∈ stateChanges p.state (emitted p (Start h p hooks.OnStart)), e ∈ specEdges)
    ∧ ((reports (emitted p (ServiceCtrlHandler h hooks p SERVICE_CONTROL_STOP))).head?).map
          (fun r => r.dwCurrentState) = some SERVICE_STOP_PENDING
    ∧ ((reports (emitted p (ServiceCtrlHandler h hooks p SERVICE_CONTROL_PAUSE))).head?).map
          (fun r => r.dwCurrentState) = some SERVICE_PAUSE_PENDING
    ∧ ((reports (emitted p
          (ServiceCtrlHandler h hooks p SERVICE_CONTROL_CONTINUE))).head?).map
          (fun r => r.dwCurrentState) = some SERVICE_CONTINUE_PENDING
    ∧ (reports (emitted p (ServiceCtrlHandler h hooks p SERVICE_CONTROL_STOP))).map
          (fun r => r.dwCurrentState)
        = [SERVICE_STOP_PENDING,
            if hooks.OnStop = HookOutcome.returns then SERVICE_STOPPED else p.state]
    ∧ (reports (emitted p (ServiceCtrlHandler h hooks p SERVICE_CONTROL_PAUSE))).map
          (fun r => r.dwCurrentState)
        = [SERVICE_PAUSE_PENDING,
            if hooks.OnPause = HookOutcome.returns then SERVICE_PAUSED else SERVICE_RUNNING]
    ∧ (reports (emitted p (ServiceCtrlHandler h hooks p SERVICE_CONTROL_CONTINUE))).map
          (fun r => r.dwCurrentState)
        = [SERVICE_CONTINUE_PENDING,
            if hooks.OnContinue = HookOutcome.returns then SERVICE_RUNNING
            else SERVICE_PAUSED]
    ∧ (reports (emitted p (ServiceCtrlHandler h hooks p SERVICE_CONTROL_SHUTDOWN))).map
          (fun r => r.dwCurrentState)
        = (if hooks.OnShutdown = HookOutcome.returns then [SERVICE_STOPPED] else []) :=
  ⟨Stop_changes h p hooks.OnStop, Pause_changes h p hooks.OnPause,
    Continue_changes h p hooks.OnContinue, Shutdown_changes h p hooks.OnShutdown,
    Start_changes h p hooks.OnStart,
    (first_change h p hooks.OnStop).1, (first_change h p hooks.OnPause).2.1,
    (first_change h p hooks.OnContinue).2.2,
    Stop_writes h p hooks.OnStop, Pause_writes h p hooks.OnPause,
    Continue_writes h p hooks.OnContinue, Shutdown_writes h p hooks.OnShutdown⟩

/-- C10 (amended) at the sample services: Stop, Pause and Shutdown dispatched
while Running, Continue dispatched while Paused and Start run from
StartPending change the state along edges of the table only. -/
theorem C10_changes_along_edges_witness :
    sampleRunning.state = SERVICE_RUNNING
    ∧ pausablePaused.state = SERVICE_PAUSED
    ∧ (processStart sampleService).state = SERVICE_START_PENDING
    ∧ (∀ e ∈ stateChanges sampleRunning.state (emitted sampleRunning
          (ServiceCtrlHandler stdHeader baseHooks sampleRunning SERVICE_CONTROL_STOP)),
        e ∈ specEdges)
    ∧ (∀ e ∈ stateChanges sampleRunning.state (emitted sampleRunning
          (ServiceCtrlHandler stdHeader baseHooks sampleRunning SERVICE_CONTROL_PAUSE)),
        e ∈ specEdges)
    ∧ (∀ e ∈ stateChanges pausablePaused.state (emitted pausablePaused
          (ServiceCtrlHandler stdHeader baseHooks pausablePaused SERVICE_CONTROL_CONTINUE)),
        e ∈ specEdges)
    ∧ (∀ e ∈ stateChanges sampleRunning.state (emitted sampleRunning
          (ServiceCtrlHandler stdHeader baseHooks sampleRunning SERVICE_CONTROL_SHUTDOWN)),
        e ∈ specEdges)
    ∧ (∀ e ∈ stateChanges (processStart sampleService).state
          (emitted (processStart sampleService)
            (Start stdHeader (processStart sampleService) baseHooks.OnStart)),
        e ∈ specEdges) :=
  ⟨by decide, by decide, by decide,
    (C10_changes_along_edges stdHeader baseHooks sampleRunning).1 (by decide),
    (C10_changes_along_edges stdHeader baseHooks sampleRunning).2.1 (by decide),
    (C10_changes_along_edges stdHeader baseHooks pausablePaused).2.2.1 (by decide),
    (C10_changes_along_edges stdHeader baseHooks sampleRunning).2.2.2.1 (by decide),
    (C10_changes_along_edges stdHeader baseHooks (processStart sampleService)).2.2.2.2.1
      (by decide)⟩

/-- C11 (as stated) fails: the freshly constructed sample service is in the
pending state StartPending; dispatching Interrogate emits nothing at all, so
no report of the current state is made, and after three Interrogates no
report has been made either. -/
theorem C11_counterexample :
    (processStart sampleService).state = SERVICE_START_PENDING
    ∧ emitted (processStart sampleService)
        (ServiceCtrlHandler stdHeader baseHooks (processStart sampleService)
          SERVICE_CONTROL_INTERROGATE) = []
    ∧ (reports (emitted (processStart sampleService)
        (ServiceCtrlHandler stdHeader baseHooks (processStart sampleService)
          SERVICE_CONTROL_INTERROGATE))).length ≠ 1
    ∧ reports (emitted (processStart sampleService)
        (runOps stdHeader (processStart sampleService)
          (List.replicate 3 (Op.control baseHooks SERVICE_CONTROL_INTERROGATE)))) = [] := by
  decide

/-- C11 (amended): for every controller state, dispatching Interrogate invokes
no hook, emits no report and leaves the whole process as it was (the state,
the checkpoint in the status record and the checkpoint counter included);
consequently interrogating N times, in a pending state or any other, makes no
report and leaves the checkpoint unchanged. -/
theorem C11_interrogate_does_nothing (h : ServiceBaseH) (hooks : Hooks) (p : Process)
    (n : Nat) :
    ServiceCtrlHandler h hooks p SERVICE_CONTROL_INTERROGATE = p
    ∧ emitted p (ServiceCtrlHandler h hooks p SERVICE_CONTROL_INTERROGATE) = []
    ∧ hookCalls (emitted p (ServiceCtrlHandler h hooks p SERVICE_CONTROL_INTERROGATE)) = []
    ∧ reports (emitted p (ServiceCtrlHandler h hooks p SERVICE_CONTROL_INTERROGATE)) = []
    ∧ (ServiceCtrlHandler h hooks p SERVICE_CONTROL_INTERROGATE).state = p.state
    ∧ runOps h p (List.replicate n (Op.control hooks SERVICE_CONTROL_INTERROGATE)) = p
    ∧ reports (emitted p
        (runOps h p (List.replicate n (Op.control hooks SERVICE_CONTROL_INTERROGATE)))) = []
    ∧ (runOps h p (List.replicate n
        (Op.control hooks SERVICE_CONTROL_INTERROGATE))).s_service.m_status.dwCheckPoint
        = p.s_service.m_status.dwCheckPoint := by
  have h1 : ServiceCtrlHandler h hooks p SERVICE_CONTROL_INTERROGATE = p := rfl
  have h2 : runOps h p (List.replicate n (Op.control hooks SERVICE_CONTROL_INTERROGATE)) = p :=
    runOps_interrogate h hooks p n
  rw [h1, h2]
  simp [emitted, hookCalls, reports]

/-- C12: the constructor sets the accepted controls to exactly the
capabilities whose flags are true (the Stop, Shutdown and PauseContinue bits
and no other bit), the state to StartPending, the exit code to 0 and the
checkpoint to 0; and every run of operations afterwards (SetServiceStatus,
Start, Stop, Pause, Continue, Shutdown, any control code, any hook outcome)
leaves the accepted controls as they were. -/
theorem C12_accepted_controls_fixed (h : ServiceBaseH) (pszServiceName : Option String)
    (fCanStop fCanShutdown fCanPauseContinue : BOOL) (p : Process) (ops : List Op) :
    (((ServiceBase.ServiceBase pszServiceName fCanStop fCanShutdown
          fCanPauseContinue).m_status.dwControlsAccepted &&& SERVICE_ACCEPT_STOP
        = (if fCanStop ≠ 0 then SERVICE_ACCEPT_STOP else 0))
      ∧ ((ServiceBase.ServiceBase pszServiceName fCanStop fCanShutdown
          fCanPauseContinue).m_status.dwControlsAccepted &&& SERVICE_ACCEPT_SHUTDOWN
        = (if fCanShutdown ≠ 0 then SERVICE_ACCEPT_SHUTDOWN else 0))
      ∧ ((ServiceBase.ServiceBase pszServiceName fCanStop fCanShutdown
          fCanPauseContinue).m_status.dwControlsAccepted &&& SERVICE_ACCEPT_PAUSE_CONTINUE
        = (if fCanPauseContinue ≠ 0 then SERVICE_ACCEPT_PAUSE_CONTINUE else 0))
      ∧ ((ServiceBase.ServiceBase pszServiceName fCanStop fCanShutdown
          fCanPauseContinue).m_status.dwControlsAccepted
        = (if fCanStop ≠ 0 then SERVICE_ACCEPT_STOP else 0)
          + (if fCanShutdown ≠ 0 then SERVICE_ACCEPT_SHUTDOWN else 0)
          + (if fCanPauseContinue ≠ 0 then SERVICE_ACCEPT_PAUSE_CONTINUE else 0))
      ∧ (ServiceBase.ServiceBase pszServiceName fCanStop fCanShutdown
          fCanPauseContinue).m_status.dwCurrentState = SERVICE_START_PENDING
      ∧ (ServiceBase.ServiceBase pszServiceName fCanStop fCanShutdown
          fCanPauseContinue).m_status.dwWin32ExitCode = 0
      ∧ (ServiceBase.ServiceBase pszServiceName fCanStop fCanShutdown
          fCanPauseContinue).m_status.dwCheckPoint = 0)
    ∧ (runOps h p ops).s_service.m_status.dwControlsAccepted
        = p.s_service.m_status.dwControlsAccepted
    ∧ (runOps h (processStart (ServiceBase.ServiceBase pszServiceName fCanStop fCanShutdown
          fCanPauseContinue)) ops).s_service.m_status.dwControlsAccepted
        = (ServiceBase.ServiceBase pszServiceName fCanStop fCanShutdown
          fCanPauseContinue).m_status.dwControlsAccepted := by
  refine ⟨?_, runOps_controlsAccepted h ops p, runOps_controlsAccepted h ops _⟩
  by_cases h1 : fCanStop = 0 <;> by_cases h2 : fCanShutdown = 0 <;>
    by_cases h3 : fCanPauseContinue = 0 <;>
    simp [ServiceBase.ServiceBase, h1, h2, h3, SERVICE_ACCEPT_STOP, SERVICE_ACCEPT_SHUTDOWN,
      SERVICE_ACCEPT_PAUSE_CONTINUE, SERVICE_START_PENDING, NO_ERROR] <;> decide

end Transitions

/-! ## The worker thread -/

section Worker

/-- C14: for every sequence of values the worker reads from the cancellation
flag: while every read so far has yielded false the worker has not signalled
the completion event (and a run whose reads are all false never signals and
does not return); and when some read yields true, the worker leaves the loop
at the first such read, reading no further, returns, and signals the
completion event exactly once, as its last action. -/
theorem C14_worker_signals_once (reads : List BOOL) :
    ((∀ x ∈ reads, x = 0) →
      WorkerEvent.SetEvent ∉ (WinService.ServiceWorkerThread reads).1
      ∧ (WinService.ServiceWorkerThread reads).2 = false)
    ∧ (∀ (done rest : List WorkerEvent),
      (WinService.ServiceWorkerThread reads).1 = done ++ rest →
      (∀ x ∈ stoppingReads done, x = 0) → WorkerEvent.SetEvent ∉ done)
    ∧ (∀ (pre : List BOOL) (v : BOOL) (post : List BOOL),
      reads = pre ++ v :: post → (∀ x ∈ pre, x = 0) → v ≠ 0 →
      WinService.ServiceWorkerThread reads
          = (WorkerEvent.InternetGetConnectedState
              :: (loopPasses pre ++ [WorkerEvent.readStopping v, WorkerEvent.SetEvent]), true)
      ∧ stoppingReads (WinService.ServiceWorkerThread reads).1 = pre ++ [v]
      ∧ (WinService.ServiceWorkerThread reads).1.count WorkerEvent.SetEvent = 1
      ∧ (WinService.ServiceWorkerThread reads).1.getLast? = some WorkerEvent.SetEvent) := by
  refine ⟨?_, ?_, ?_⟩
  · intro hall
    rw [ServiceWorkerThread_all_false reads hall]
    refine ⟨?_, rfl⟩
    intro hin
    rcases List.mem_cons.mp hin with h1 | h2
    · cases h1
    · exact SetEvent_not_mem_loopPasses reads h2
  · intro done rest hrun hdone
    exact no_signal_before_true reads done rest hrun hdone
  · intro pre v post heq hpre hv
    subst heq
    rw [ServiceWorkerThread_first_true pre v post hpre hv]
    refine ⟨rfl, ?_, ?_, ?_⟩
    · simp [stoppingReads, stoppingReads_append, stoppingReads_loopPasses]
    · simp [List.count_cons, List.count_append, count_SetEvent_loopPasses]
    · have hsplit : WorkerEvent.InternetGetConnectedState
          :: (loopPasses pre ++ [WorkerEvent.readStopping v, WorkerEvent.SetEvent])
          = (WorkerEvent.InternetGetConnectedState
              :: (loopPasses pre ++ [WorkerEvent.readStopping v])) ++ [WorkerEvent.SetEvent] := by
        simp
      show (WorkerEvent.InternetGetConnectedState
          :: (loopPasses pre ++ [WorkerEvent.readStopping v, WorkerEvent.SetEvent])).getLast?
          = some WorkerEvent.SetEvent
      rw [hsplit]
      exact List.getLast?_concat _

/-- C14 at the reads false, false, true, false: nothing is signalled during
the first two passes, the worker leaves the loop at the third read and then
signals once, last; and at the reads false, false the worker is still in the
loop and has signalled nothing. -/
theorem C14_worker_signals_once_witness :
    ((∀ x ∈ [(0 : BOOL), 0], x = 0)
      ∧ WorkerEvent.SetEvent ∉ (WinService.ServiceWorkerThread [0, 0]).1
      ∧ (WinService.ServiceWorkerThread [0, 0]).2 = false)
    ∧ ((WinService.ServiceWorkerThread [0, 0, 1, 0]).1
          = (WorkerEvent.InternetGetConnectedState :: loopPasses [0, 0])
            ++ [WorkerEvent.readStopping 1, WorkerEvent.SetEvent]
      ∧ (∀ x ∈ stoppingReads (WorkerEvent.InternetGetConnectedState :: loopPasses [0, 0]),
          x = 0)
      ∧ WorkerEvent.SetEvent ∉ WorkerEvent.InternetGetConnectedState :: loopPasses [0, 0])
    ∧ (([0, 0, 1, 0] : List BOOL) = [0, 0] ++ 1 :: [0]
      ∧ (∀ x ∈ [(0 : BOOL), 0], x = 0)
      ∧ (1 : BOOL) ≠ 0
      ∧ (WinService.ServiceWorkerThread [0, 0, 1, 0]).2 = true
      ∧ stoppingReads (WinService.ServiceWorkerThread [0, 0, 1, 0]).1 = [0, 0] ++ [1]
      ∧ (WinService.ServiceWorkerThread [0, 0, 1, 0]).1.count WorkerEvent.SetEvent = 1
      ∧ (WinService.ServiceWorkerThread [0, 0, 1, 0]).1.getLast?
          = some WorkerEvent.SetEvent) :=
  ⟨⟨by decide, (C14_worker_signals_once [0, 0]).1 (by decide)⟩,
    ⟨by decide, by decide,
      (C14_worker_signals_once [0, 0, 1, 0]).2.1
        (WorkerEvent.InternetGetConnectedState :: loopPasses [0, 0])
        [WorkerEvent.readStopping 1, WorkerEvent.SetEvent] (by decide) (by decide)⟩,
    ⟨by decide, by decide, by decide,
      congrArg Prod.snd
        ((C14_worker_signals_once [0, 0, 1, 0]).2.2 [0, 0] 1 [0]
          (by decide) (by decide) (by decide)).1,
      ((C14_worker_signals_once [0, 0, 1, 0]).2.2 [0, 0] 1 [0]
        (by decide) (by decide) (by decide)).2⟩⟩

end Worker

end WinServ
